import Mathlib

/-!
Verification development for the NumberNavigator browser extension.

The first part is a shallow embedding of `src/content.ts`: the page is a
list of element descriptors (in document order), the DOM state mutated by
the content script (the `data-number-navigator-assigned` marker, the inline
`position`/`overflow` styles, and the appended label nodes) is carried in an
explicit state record, and the `chrome.runtime.onMessage` listener becomes a
step function from requests to (state, response, emitted DOM actions).

The second part embeds the speech-to-number parsing layer
(`speech-to-number.component.ts` together with `number-words.ts`): the
per-language word maps are association lists looked up with JavaScript
object-literal semantics (a later binding for a key overrides an earlier
one), and `parseSpeechToNumber` is the same cascade as the source: direct
lookup of the cleaned utterance, then the leftmost whitespace token that is
a key, then a bounded `parseInt` fallback.
-/

set_option maxRecDepth 8000
set_option maxHeartbeats 1000000

/-- Geometry returned by `getBoundingClientRect`, with integer coordinates. -/
structure Rect where
  top : Int
  bottom : Int
  left : Int
  right : Int
  width : Int
  height : Int
deriving DecidableEq, Repr

/-- The fields of `window.getComputedStyle(el)` read by `isElementVisible`.
`opacityZero` stands for `parseFloat(style.opacity) === 0`. -/
structure ComputedStyle where
  display : String
  visibility : String
  opacityZero : Bool
deriving DecidableEq, Repr

/-- The window viewport (`window.innerWidth` / `window.innerHeight`). -/
structure Viewport where
  innerWidth : Int
  innerHeight : Int
deriving DecidableEq, Repr

/-- Embedding of `isElementVisible` from `content.ts`: an element is visible
when it is not `display: none`, not `visibility: hidden`, has nonzero
opacity, and its bounding rectangle has positive size and intersects the
viewport. -/
def isElementVisible (vp : Viewport) (style : ComputedStyle) (rect : Rect) : Bool :=
  if style.display == "none" || style.visibility == "hidden" || style.opacityZero then
    false
  else
    rect.top < vp.innerHeight && rect.bottom > 0 && rect.left < vp.innerWidth &&
      rect.right > 0 && rect.width > 0 && rect.height > 0

/-- Immutable description of one DOM element, listed in document order.
`sel` says whether the element matches the fixed CSS selector list of
`findAndNumberClickableElements`; `ancestors` lists the indices of its
strict ancestors; `basePosition` / `baseOverflow` are the computed
`position` / `overflow` when no inline style is set. -/
structure ElemProps where
  sel : Bool
  tagName : String
  style : ComputedStyle
  rect : Rect
  ancestors : List Nat
  basePosition : String
  baseOverflow : String
deriving DecidableEq, Repr

/-- Out-of-range default: matches nothing and is invisible. -/
def defaultProps : ElemProps :=
  ⟨false, "", ⟨"none", "hidden", true⟩, ⟨0, 0, 0, 0, 0, 0⟩, [], "", ""⟩

/-- The part of an element's DOM state the content script mutates:
the `data-number-navigator-assigned` marker and the inline
`style.position` / `style.overflow` (the empty string means "not set"). -/
structure ElemMut where
  navAssigned : Bool
  stylePosition : String
  styleOverflow : String
deriving DecidableEq, Repr

/-- Fresh element state: no marker, no inline styles. -/
def defaultMut : ElemMut := ⟨false, "", ""⟩

/-- A number label `<span>` appended to a host element. -/
structure LabelNode where
  host : Nat
  num : Nat
  text : String
deriving DecidableEq, Repr

/-- Embedding of the `ClickableElementInfo` interface of `content.ts`. -/
structure ClickableElementInfo where
  element : Nat
  number : Nat
  labelElement : LabelNode
  originalPosition : Option String
  originalOverflow : Option String
deriving DecidableEq, Repr

/-- The content-script state: the mutable DOM state of every element
(parallel to the page list), the label nodes currently attached to the DOM,
and the script's module-level variables `clickableElements` and
`nextNumber`. -/
structure CState where
  elems : List ElemMut
  labels : List LabelNode
  clickableElements : List ClickableElementInfo
  nextNumber : Nat
deriving DecidableEq, Repr

/-- The cap constant of `content.ts`. -/
def MAX_ELEMENTS_TO_NUMBER : Nat := 200

/-- The `data-number-navigator-assigned` marker of element `i`. -/
def marksOf (st : CState) : Nat → Bool :=
  fun i => (st.elems.getD i defaultMut).navAssigned

/-- Computed `position` of element `i`: the inline style wins when set. -/
def computedPosition (page : List ElemProps) (elems : List ElemMut) (i : Nat) : String :=
  let m := elems.getD i defaultMut
  if m.stylePosition == "" then (page.getD i defaultProps).basePosition else m.stylePosition

/-- Computed `overflow` of element `i`: the inline style wins when set. -/
def computedOverflow (page : List ElemProps) (elems : List ElemMut) (i : Nat) : String :=
  let m := elems.getD i defaultMut
  if m.styleOverflow == "" then (page.getD i defaultProps).baseOverflow else m.styleOverflow

/-- `isElementVisible` applied to element `i` of the page. -/
def visibleAt (vp : Viewport) (page : List ElemProps) (i : Nat) : Bool :=
  isElementVisible vp (page.getD i defaultProps).style (page.getD i defaultProps).rect

/-- Embedding of `element.closest('[data-number-navigator-assigned="true"]')`:
the element itself or one of its ancestors carries the marker. -/
def closestAssigned (page : List ElemProps) (elems : List ElemMut) (i : Nat) : Bool :=
  (elems.getD i defaultMut).navAssigned ||
    (page.getD i defaultProps).ancestors.any (fun j => (elems.getD j defaultMut).navAssigned)

/-- The label text `` `{${nextNumber}}` `` of `content.ts`. -/
def bracesText (n : Nat) : String := "\x7b" ++ Nat.repr n ++ "\x7d"

/-- The body of the `elements.forEach` callback of
`findAndNumberClickableElements`, for one queried element `i`. -/
def processElement (page : List ElemProps) (vp : Viewport) (st : CState) (i : Nat) : CState :=
  if st.nextNumber > MAX_ELEMENTS_TO_NUMBER then st
  else if (st.elems.getD i defaultMut).navAssigned || !(visibleAt vp page i) then st
  else if closestAssigned page st.elems i then st
  else
    let n := st.nextNumber + 1
    let origPos := computedPosition page st.elems i
    let origOver := computedOverflow page st.elems i
    let m := st.elems.getD i defaultMut
    let m1 : ElemMut :=
      { navAssigned := true
        stylePosition := if origPos == "static" then "relative" else m.stylePosition
        styleOverflow := if origOver == "hidden" then "visible" else m.styleOverflow }
    let label : LabelNode := ⟨i, n, bracesText n⟩
    { elems := st.elems.set i m1
      labels := st.labels ++ [label]
      clickableElements := st.clickableElements ++
        [⟨i, n, label, (if origPos == "static" then some "static" else none),
          (if origOver == "hidden" then some "hidden" else none)⟩]
      nextNumber := n + 1 }

/-- `document.querySelectorAll(selectors.join(', '))`: the indices of the
elements matching the selector list, in document order. -/
def queryAll (page : List ElemProps) : List Nat :=
  (List.range page.length).filter (fun i => (page.getD i defaultProps).sel)

/-- One iteration of the `clickableElements.forEach` loop of `clearNumbers`:
detach the label, delete the marker, and conditionally reset the inline
`position` / `overflow` styles. -/
def clearInfo (st : CState) (info : ClickableElementInfo) : CState :=
  let labels := st.labels.filter (fun l => decide (l ≠ info.labelElement))
  let m := st.elems.getD info.element defaultMut
  let m1 : ElemMut := { m with navAssigned := false }
  let m2 : ElemMut := { m1 with stylePosition :=
    if info.originalPosition == some "static" && m1.stylePosition == "relative" then ""
    else m1.stylePosition }
  let m3 : ElemMut := { m2 with styleOverflow :=
    if info.originalOverflow == some "hidden" && m2.styleOverflow == "visible" then ""
    else m2.styleOverflow }
  { st with labels := labels, elems := st.elems.set info.element m3 }

/-- Embedding of `clearNumbers` from `content.ts`. -/
def clearNumbers (st : CState) : CState :=
  let st1 := st.clickableElements.foldl clearInfo st
  { st1 with clickableElements := [], nextNumber := 1 }

/-- Embedding of `findAndNumberClickableElements` from `content.ts`. -/
def findAndNumberClickableElements (page : List ElemProps) (vp : Viewport) (st : CState) :
    CState :=
  (queryAll page).foldl (processElement page vp) (clearNumbers st)

/-- The messages handled by the `chrome.runtime.onMessage` listener. -/
inductive Request where
  | numberClickables
  | clickElement (number : Int)
  | clearNumbers
  | scrollUp
  | scrollDown
deriving DecidableEq, Repr

/-- The responses sent through `sendResponse`. -/
inductive Response where
  | clickablesNumbered (count : Nat)
  | clicked (number : Int)
  | error (message : String)
  | numbersCleared
  | scrolledUp
  | scrolledDown
deriving DecidableEq, Repr

/-- The externally visible DOM actions the listener performs. -/
inductive DomAction where
  | focus (element : Nat)
  | click (element : Nat)
  | mousedown (element : Nat)
  | scrollUp
  | scrollDown
deriving DecidableEq, Repr

/-- The click-time DOM facts the `clickElement` branch reads:
`document.body.contains` and the inputs of `isElementVisible`. -/
structure DynElem where
  inBody : Bool
  style : ComputedStyle
  rect : Rect

/-- Embedding of the `chrome.runtime.onMessage` listener of `content.ts`:
maps a request to the new state, the response, and the DOM actions taken. -/
def handleRequest (page : List ElemProps) (vp : Viewport) (dyn : Nat → DynElem) (st : CState) :
    Request → CState × Response × List DomAction
  | .numberClickables =>
    let st' := findAndNumberClickableElements page vp st
    (st', .clickablesNumbered st'.clickableElements.length, [])
  | .clickElement n =>
    match st.clickableElements.find? (fun item => decide ((item.number : Int) = n)) with
    | some targetInfo =>
      if (dyn targetInfo.element).inBody &&
          isElementVisible vp (dyn targetInfo.element).style (dyn targetInfo.element).rect then
        (clearNumbers st, .clicked n,
          [.focus targetInfo.element, .click targetInfo.element] ++
            (if (page.getD targetInfo.element defaultProps).tagName == "SELECT" then
              [.mousedown targetInfo.element]
            else []))
      else
        (clearNumbers st, .error ("Element " ++ toString n ++ " not visible/found."), [])
    | none => (st, .error ("No element for number " ++ toString n ++ "."), [])
  | .clearNumbers => (clearNumbers st, .numbersCleared, [])
  | .scrollUp => (st, .scrolledUp, [.scrollUp])
  | .scrollDown => (st, .scrolledDown, [.scrollDown])

/-- A step of the extension's message loop: the page content, viewport and
click-time DOM facts at the moment the request arrives, and the request. -/
structure StepInput where
  page : List ElemProps
  vp : Viewport
  dyn : Nat → DynElem
  req : Request

/-- Run a sequence of requests through the listener. -/
def runSteps (st : CState) (steps : List StepInput) : CState :=
  steps.foldl (fun s i => (handleRequest i.page i.vp i.dyn s i.req).1) st

/-- The content script's state when first injected: the page's pre-existing
element state, no labels, `clickableElements = []`, `nextNumber = 1`. -/
def initState (mut0 : List ElemMut) : CState := ⟨mut0, [], [], 1⟩

/-- Decimal digit strings "0" … "200" mapped to their values: the
`Object.fromEntries(Array.from(\x7b length: 201 \x7d, (_, i) => [i.toString(), i]))`
spread of `number-words.ts`. -/
def numericStrings : List (String × Int) :=
  (List.range 201).map (fun i => (Nat.repr i, (i : Int)))

/-- One Eastern Arabic digit, as produced by `i.toLocaleString(ar-EG)`
digit by digit (U+0660 … U+0669). -/
def easternDigit (c : Char) : Char := Char.ofNat (0x660 + (c.toNat - 48))

/-- Eastern Arabic numeral strings "٠" … "٢٠٠" mapped to their values: the
second spread of the Arabic map in `number-words.ts`. -/
def easternNumericStrings : List (String × Int) :=
  (List.range 201).map (fun i => (String.mk ((Nat.repr i).data.map easternDigit), (i : Int)))

/-- English word entries of `numberWordMaps.en` in `number-words.ts`, in source order. -/
def enWords : List (String × Int) :=
  [
    ("zero", 0), ("one", 1), ("two", 2), ("three", 3), ("four", 4), ("five", 5),
    ("six", 6), ("seven", 7), ("eight", 8), ("nine", 9), ("ten", 10), ("eleven", 11),
    ("twelve", 12), ("thirteen", 13), ("fourteen", 14), ("fifteen", 15), ("sixteen", 16), ("seventeen", 17),
    ("eighteen", 18), ("nineteen", 19), ("twenty", 20), ("twenty-one", 21), ("twenty one", 21), ("twenty-two", 22),
    ("twenty two", 22), ("twenty-three", 23), ("twenty three", 23), ("twenty-four", 24), ("twenty four", 24), ("twenty-five", 25),
    ("twenty five", 25), ("twenty-six", 26), ("twenty six", 26), ("twenty-seven", 27), ("twenty seven", 27), ("twenty-eight", 28),
    ("twenty eight", 28), ("twenty-nine", 29), ("twenty nine", 29), ("thirty", 30), ("thirty-one", 31), ("thirty one", 31),
    ("thirty-two", 32), ("thirty two", 32), ("thirty-three", 33), ("thirty three", 33), ("thirty-four", 34), ("thirty four", 34),
    ("thirty-five", 35), ("thirty five", 35), ("thirty-six", 36), ("thirty six", 36), ("thirty-seven", 37), ("thirty seven", 37),
    ("thirty-eight", 38), ("thirty eight", 38), ("thirty-nine", 39), ("thirty nine", 39), ("forty", 40), ("forty-one", 41),
    ("forty one", 41), ("forty-two", 42), ("forty two", 42), ("forty-three", 43), ("forty three", 43), ("forty-four", 44),
    ("forty four", 44), ("forty-five", 45), ("forty five", 45), ("forty-six", 46), ("forty six", 46), ("forty-seven", 47),
    ("forty seven", 47), ("forty-eight", 48), ("forty eight", 48), ("forty-nine", 49), ("forty nine", 49), ("fifty", 50),
    ("fifty-one", 51), ("fifty one", 51), ("fifty-two", 52), ("fifty two", 52), ("fifty-three", 53), ("fifty three", 53),
    ("fifty-four", 54), ("fifty four", 54), ("fifty-five", 55), ("fifty five", 55), ("fifty-six", 56), ("fifty six", 56),
    ("fifty-seven", 57), ("fifty seven", 57), ("fifty-eight", 58), ("fifty eight", 58), ("fifty-nine", 59), ("fifty nine", 59),
    ("sixty", 60), ("sixty-one", 61), ("sixty one", 61), ("sixty-two", 62), ("sixty two", 62), ("sixty-three", 63),
    ("sixty three", 63), ("sixty-four", 64), ("sixty four", 64), ("sixty-five", 65), ("sixty five", 65), ("sixty-six", 66),
    ("sixty six", 66), ("sixty-seven", 67), ("sixty seven", 67), ("sixty-eight", 68), ("sixty eight", 68), ("sixty-nine", 69),
    ("sixty nine", 69), ("seventy", 70), ("seventy-one", 71), ("seventy one", 71), ("seventy-two", 72), ("seventy two", 72),
    ("seventy-three", 73), ("seventy three", 73), ("seventy-four", 74), ("seventy four", 74), ("seventy-five", 75), ("seventy five", 75),
    ("seventy-six", 76), ("seventy six", 76), ("seventy-seven", 77), ("seventy seven", 77), ("seventy-eight", 78), ("seventy eight", 78),
    ("seventy-nine", 79), ("seventy nine", 79), ("eighty", 80), ("eighty-one", 81), ("eighty one", 81), ("eighty-two", 82),
    ("eighty two", 82), ("eighty-three", 83), ("eighty three", 83), ("eighty-four", 84), ("eighty four", 84), ("eighty-five", 85),
    ("eighty five", 85), ("eighty-six", 86), ("eighty six", 86), ("eighty-seven", 87), ("eighty seven", 87), ("eighty-eight", 88),
    ("eighty eight", 88), ("eighty-nine", 89), ("eighty nine", 89), ("ninety", 90), ("ninety-one", 91), ("ninety one", 91),
    ("ninety-two", 92), ("ninety two", 92), ("ninety-three", 93), ("ninety three", 93), ("ninety-four", 94), ("ninety four", 94),
    ("ninety-five", 95), ("ninety five", 95), ("ninety-six", 96), ("ninety six", 96), ("ninety-seven", 97), ("ninety seven", 97),
    ("ninety-eight", 98), ("ninety eight", 98), ("ninety-nine", 99), ("ninety nine", 99), ("one hundred", 100), ("hundred", 100),
    ("one hundred and one", 101), ("one hundred one", 101), ("one hundred and two", 102), ("one hundred two", 102), ("one hundred and three", 103), ("one hundred three", 103),
    ("one hundred and four", 104), ("one hundred four", 104), ("one hundred and five", 105), ("one hundred five", 105), ("one hundred and six", 106), ("one hundred six", 106),
    ("one hundred and seven", 107), ("one hundred seven", 107), ("one hundred and eight", 108), ("one hundred eight", 108), ("one hundred and nine", 109), ("one hundred nine", 109),
    ("one hundred and ten", 110), ("one hundred ten", 110), ("one hundred and eleven", 111), ("one hundred eleven", 111), ("one hundred and twelve", 112), ("one hundred twelve", 112),
    ("one hundred and thirteen", 113), ("one hundred thirteen", 113), ("one hundred and fourteen", 114), ("one hundred fourteen", 114), ("one hundred and fifteen", 115), ("one hundred fifteen", 115),
    ("one hundred and sixteen", 116), ("one hundred sixteen", 116), ("one hundred and seventeen", 117), ("one hundred seventeen", 117), ("one hundred and eighteen", 118), ("one hundred eighteen", 118),
    ("one hundred and nineteen", 119), ("one hundred nineteen", 119), ("one hundred and twenty", 120), ("one hundred twenty", 120), ("one hundred and twenty-one", 121), ("one hundred twenty-one", 121),
    ("one hundred and twenty one", 121), ("one hundred twenty one", 121), ("one hundred and thirty", 130), ("one hundred thirty", 130), ("one hundred and forty", 140), ("one hundred forty", 140),
    ("one hundred and fifty", 150), ("one hundred fifty", 150), ("one hundred and sixty", 160), ("one hundred sixty", 160), ("one hundred and seventy", 170), ("one hundred seventy", 170),
    ("one hundred and eighty", 180), ("one hundred eighty", 180), ("one hundred and ninety", 190), ("one hundred ninety", 190), ("two hundred", 200)
  ]

/-- The full `en` map: word entries followed by the numeric-string spread. -/
def enMap : List (String × Int) := enWords ++ numericStrings

/-- Italian word entries of `numberWordMaps.it` in `number-words.ts`, in source order. -/
def itWords : List (String × Int) :=
  [
    ("zero", 0), ("uno", 1), ("due", 2), ("tre", 3), ("quattro", 4), ("cinque", 5),
    ("sei", 6), ("sette", 7), ("otto", 8), ("nove", 9), ("dieci", 10), ("undici", 11),
    ("dodici", 12), ("tredici", 13), ("quattordici", 14), ("quindici", 15), ("sedici", 16), ("diciassette", 17),
    ("diciotto", 18), ("diciannove", 19), ("venti", 20), ("ventuno", 21), ("ventidue", 22), ("ventitré", 23),
    ("ventiquattro", 24), ("venticinque", 25), ("ventisei", 26), ("ventisette", 27), ("ventotto", 28), ("ventinove", 29),
    ("trenta", 30), ("trentuno", 31), ("trentadue", 32), ("trentatré", 33), ("trentaquattro", 34), ("trentacinque", 35),
    ("trentasei", 36), ("trentasette", 37), ("trentotto", 38), ("trentanove", 39), ("quaranta", 40), ("quarantuno", 41),
    ("quarantadue", 42), ("quarantatré", 43), ("quarantaquattro", 44), ("quarantacinque", 45), ("quarantasei", 46), ("quarantasette", 47),
    ("quarantotto", 48), ("quarantanove", 49), ("cinquanta", 50), ("cinquantuno", 51), ("cinquantadue", 52), ("cinquantatré", 53),
    ("cinquantaquattro", 54), ("cinquantacinque", 55), ("cinquantasei", 56), ("cinquantasette", 57), ("cinquantotto", 58), ("cinquantanove", 59),
    ("sessanta", 60), ("sessantuno", 61), ("sessantadue", 62), ("sessantatré", 63), ("sessantaquattro", 64), ("sessantacinque", 65),
    ("sessantasei", 66), ("sessantasette", 67), ("sessantotto", 68), ("sessantanove", 69), ("settanta", 70), ("settantuno", 71),
    ("settantadue", 72), ("settantatré", 73), ("settantaquattro", 74), ("settantacinque", 75), ("settantasei", 76), ("settantasette", 77),
    ("settantotto", 78), ("settantanove", 79), ("ottanta", 80), ("ottantuno", 81), ("ottantadue", 82), ("ottantatré", 83),
    ("ottantaquattro", 84), ("ottantacinque", 85), ("ottantasei", 86), ("ottantasette", 87), ("ottantotto", 88), ("ottantanove", 89),
    ("novanta", 90), ("novantuno", 91), ("novantadue", 92), ("novantatré", 93), ("novantaquattro", 94), ("novantacinque", 95),
    ("novantasei", 96), ("novantasette", 97), ("novantotto", 98), ("novantanove", 99), ("cento", 100), ("centouno", 101),
    ("centodue", 102), ("centotré", 103), ("centoquattro", 104), ("centocinque", 105), ("centosei", 106), ("centosette", 107),
    ("centootto", 108), ("centonove", 109), ("centodieci", 110), ("centoundici", 111), ("centododici", 112), ("centotredici", 113),
    ("centoquattordici", 114), ("centoquindici", 115), ("centosedici", 116), ("centodiciassette", 117), ("centodiciotto", 118), ("centodiciannove", 119),
    ("centoventi", 120), ("centoventuno", 121), ("centoventidue", 122), ("centoventitré", 123), ("centoventiquattro", 124), ("centoventicinque", 125),
    ("centoventisei", 126), ("centoventisette", 127), ("centoventotto", 128), ("centoventinove", 129), ("centotrenta", 130), ("centotrentuno", 131),
    ("centotrentadue", 132), ("centotrentatré", 133), ("centotrentaquattro", 134), ("centotrentacinque", 135), ("centotrentasei", 136), ("centotrentasette", 137),
    ("centotrentotto", 138), ("centotrentanove", 139), ("centoquaranta", 140), ("centoquarantuno", 141), ("centoquarantadue", 142), ("centoquarantatré", 143),
    ("centoquarantaquattro", 144), ("centoquarantacinque", 145), ("centoquarantasei", 146), ("centoquarantasette", 147), ("centoquarantotto", 148), ("centoquarantanove", 149),
    ("centocinquanta", 150), ("centocinquantuno", 151), ("centocinquantadue", 152), ("centocinquantatré", 153), ("centocinquantaquattro", 154), ("centocinquantacinque", 155),
    ("centocinquantasei", 156), ("centocinquantasette", 157), ("centocinquantotto", 158), ("centocinquantanove", 159), ("centosessanta", 160), ("centosessantuno", 161),
    ("centosessantadue", 162), ("centosessantatré", 163), ("centosessantaquattro", 164), ("centosessantacinque", 165), ("centosessantasei", 166), ("centosessantasette", 167),
    ("centosessantotto", 168), ("centosessantanove", 169), ("centosettanta", 170), ("centosettantuno", 171), ("centosettantadue", 172), ("centosettantatré", 173),
    ("centosettantaquattro", 174), ("centosettantacinque", 175), ("centosettantasei", 176), ("centosettantasette", 177), ("centosettantotto", 178), ("centosettantanove", 179),
    ("centottanta", 180), ("centottantuno", 181), ("centottantadue", 182), ("centottantatré", 183), ("centottantaquattro", 184), ("centottantacinque", 185),
    ("centottantasei", 186), ("centottantasette", 187), ("centottantotto", 188), ("centottantanove", 189), ("centonovanta", 190), ("centonovantuno", 191),
    ("centonovantadue", 192), ("centonovantatré", 193), ("centonovantaquattro", 194), ("centonovantacinque", 195), ("centonovantasei", 196), ("centonovantasette", 197),
    ("centonovantotto", 198), ("centonovantanove", 199), ("duecento", 200), ("venti uno", 21), ("venti due", 22), ("venti tre", 23),
    ("venti quattro", 24), ("venti cinque", 25), ("venti sei", 26), ("venti sette", 27), ("venti otto", 28), ("venti nove", 29),
    ("trenta uno", 31), ("trenta due", 32), ("trenta tre", 33), ("trenta quattro", 34), ("trenta cinque", 35), ("trenta sei", 36),
    ("trenta sette", 37), ("trenta otto", 38), ("trenta nove", 39), ("quaranta uno", 41), ("quaranta due", 42), ("quaranta tre", 43),
    ("quaranta quattro", 44), ("quaranta cinque", 45), ("quaranta sei", 46), ("quaranta sette", 47), ("quaranta otto", 48), ("quaranta nove", 49),
    ("cinquanta uno", 51), ("cinquanta due", 52), ("cinquanta tre", 53), ("cinquanta quattro", 54), ("cinquanta cinque", 55), ("cinquanta sei", 56),
    ("cinquanta sette", 57), ("cinquanta otto", 58), ("cinquanta nove", 59), ("sessanta uno", 61), ("sessanta due", 62), ("sessanta tre", 63),
    ("sessanta quattro", 64), ("sessanta cinque", 65), ("sessanta sei", 66), ("sessanta sette", 67), ("sessanta otto", 68), ("sessanta nove", 69),
    ("settanta uno", 71), ("settanta due", 72), ("settanta tre", 73), ("settanta quattro", 74), ("settanta cinque", 75), ("settanta sei", 76),
    ("settanta sette", 77), ("settanta otto", 78), ("settanta nove", 79), ("ottanta uno", 81), ("ottanta due", 82), ("ottanta tre", 83),
    ("ottanta quattro", 84), ("ottanta cinque", 85), ("ottanta sei", 86), ("ottanta sette", 87), ("ottanta otto", 88), ("ottanta nove", 89),
    ("novanta uno", 91), ("novanta due", 92), ("novanta tre", 93), ("novanta quattro", 94), ("novanta cinque", 95), ("novanta sei", 96),
    ("novanta sette", 97), ("novanta otto", 98), ("novanta nove", 99)
  ]

/-- The full `it` map: word entries followed by the numeric-string spread. -/
def itMap : List (String × Int) := itWords ++ numericStrings

/-- Spanish word entries of `numberWordMaps.es` in `number-words.ts`, in source order. -/
def esWords : List (String × Int) :=
  [
    ("cero", 0), ("uno", 1), ("dos", 2), ("tres", 3), ("cuatro", 4), ("cinco", 5),
    ("seis", 6), ("siete", 7), ("ocho", 8), ("nueve", 9), ("diez", 10), ("once", 11),
    ("doce", 12), ("trece", 13), ("catorce", 14), ("quince", 15), ("dieciséis", 16), ("diecisiete", 17),
    ("dieciocho", 18), ("diecinueve", 19), ("veinte", 20), ("veintiuno", 21), ("veintiún", 21), ("veintidós", 22),
    ("veintitrés", 23), ("veinticuatro", 24), ("veinticinco", 25), ("veintiséis", 26), ("veintisiete", 27), ("veintiocho", 28),
    ("veintinueve", 29), ("treinta", 30), ("treinta y uno", 31), ("treinta y dos", 32), ("treinta y tres", 33), ("treinta y cuatro", 34),
    ("treinta y cinco", 35), ("treinta y seis", 36), ("treinta y siete", 37), ("treinta y ocho", 38), ("treinta y nueve", 39), ("cuarenta", 40),
    ("cuarenta y uno", 41), ("cuarenta y dos", 42), ("cuarenta y tres", 43), ("cuarenta y cuatro", 44), ("cuarenta y cinco", 45), ("cuarenta y seis", 46),
    ("cuarenta y siete", 47), ("cuarenta y ocho", 48), ("cuarenta y nueve", 49), ("cincuenta", 50), ("cincuenta y uno", 51), ("cincuenta y dos", 52),
    ("cincuenta y tres", 53), ("cincuenta y cuatro", 54), ("cincuenta y cinco", 55), ("cincuenta y seis", 56), ("cincuenta y siete", 57), ("cincuenta y ocho", 58),
    ("cincuenta y nueve", 59), ("sesenta", 60), ("sesenta y uno", 61), ("sesenta y dos", 62), ("sesenta y tres", 63), ("sesenta y cuatro", 64),
    ("sesenta y cinco", 65), ("sesenta y seis", 66), ("sesenta y siete", 67), ("sesenta y ocho", 68), ("sesenta y nueve", 69), ("setenta", 70),
    ("setenta y uno", 71), ("setenta y dos", 72), ("setenta y tres", 73), ("setenta y cuatro", 74), ("setenta y cinco", 75), ("setenta y seis", 76),
    ("setenta y siete", 77), ("setenta y ocho", 78), ("setenta y nueve", 79), ("ochenta", 80), ("ochenta y uno", 81), ("ochenta y dos", 82),
    ("ochenta y tres", 83), ("ochenta y cuatro", 84), ("ochenta y cinco", 85), ("ochenta y seis", 86), ("ochenta y siete", 87), ("ochenta y ocho", 88),
    ("ochenta y nueve", 89), ("noventa", 90), ("noventa y uno", 91), ("noventa y dos", 92), ("noventa y tres", 93), ("noventa y cuatro", 94),
    ("noventa y cinco", 95), ("noventa y seis", 96), ("noventa y siete", 97), ("noventa y ocho", 98), ("noventa y nueve", 99), ("cien", 100),
    ("ciento", 100), ("ciento uno", 101), ("ciento dos", 102), ("ciento tres", 103), ("ciento cuatro", 104), ("ciento cinco", 105),
    ("ciento seis", 106), ("ciento siete", 107), ("ciento ocho", 108), ("ciento nueve", 109), ("ciento diez", 110), ("ciento once", 111),
    ("ciento doce", 112), ("ciento trece", 113), ("ciento catorce", 114), ("ciento quince", 115), ("ciento dieciséis", 116), ("ciento diecisiete", 117),
    ("ciento dieciocho", 118), ("ciento diecinueve", 119), ("ciento veinte", 120), ("ciento veintiuno", 121), ("ciento veintiún", 121), ("ciento veintidós", 122),
    ("ciento veintitrés", 123), ("ciento veinticuatro", 124), ("ciento veinticinco", 125), ("ciento veintiséis", 126), ("ciento veintisiete", 127), ("ciento veintiocho", 128),
    ("ciento veintinueve", 129), ("ciento treinta", 130), ("ciento cuarenta", 140), ("ciento cincuenta", 150), ("ciento sesenta", 160), ("ciento setenta", 170),
    ("ciento ochenta", 180), ("ciento noventa", 190), ("doscientos", 200), ("treinta-y-uno", 31), ("treinta-y-dos", 32), ("treinta-y-tres", 33),
    ("treinta-y-cuatro", 34), ("treinta-y-cinco", 35), ("treinta-y-seis", 36), ("treinta-y-siete", 37), ("treinta-y-ocho", 38), ("treinta-y-nueve", 39),
    ("cuarenta-y-uno", 41), ("cuarenta-y-dos", 42), ("cuarenta-y-tres", 43), ("cuarenta-y-cuatro", 44), ("cuarenta-y-cinco", 45), ("cuarenta-y-seis", 46),
    ("cuarenta-y-siete", 47), ("cuarenta-y-ocho", 48), ("cuarenta-y-nueve", 49)
  ]

/-- The full `es` map: word entries followed by the numeric-string spread. -/
def esMap : List (String × Int) := esWords ++ numericStrings

/-- French word entries of `numberWordMaps.fr` in `number-words.ts`, in source order. -/
def frWords : List (String × Int) :=
  [
    ("zéro", 0), ("un", 1), ("deux", 2), ("trois", 3), ("quatre", 4), ("cinq", 5),
    ("six", 6), ("sept", 7), ("huit", 8), ("neuf", 9), ("dix", 10), ("onze", 11),
    ("douze", 12), ("treize", 13), ("quatorze", 14), ("quinze", 15), ("seize", 16), ("dix-sept", 17),
    ("dix-huit", 18), ("dix-neuf", 19), ("vingt", 20), ("vingt et un", 21), ("vingt-deux", 22), ("vingt-trois", 23),
    ("vingt-quatre", 24), ("vingt-cinq", 25), ("vingt-six", 26), ("vingt-sept", 27), ("vingt-huit", 28), ("vingt-neuf", 29),
    ("trente", 30), ("trente et un", 31), ("trente-deux", 32), ("trente-trois", 33), ("trente-quatre", 34), ("trente-cinq", 35),
    ("trente-six", 36), ("trente-sept", 37), ("trente-huit", 38), ("trente-neuf", 39), ("quarante", 40), ("quarante et un", 41),
    ("quarante-deux", 42), ("quarante-trois", 43), ("quarante-quatre", 44), ("quarante-cinq", 45), ("quarante-six", 46), ("quarante-sept", 47),
    ("quarante-huit", 48), ("quarante-neuf", 49), ("cinquante", 50), ("cinquante et un", 51), ("cinquante-deux", 52), ("cinquante-trois", 53),
    ("cinquante-quatre", 54), ("cinquante-cinq", 55), ("cinquante-six", 56), ("cinquante-sept", 57), ("cinquante-huit", 58), ("cinquante-neuf", 59),
    ("soixante", 60), ("soixante et un", 61), ("soixante-deux", 62), ("soixante-trois", 63), ("soixante-quatre", 64), ("soixante-cinq", 65),
    ("soixante-six", 66), ("soixante-sept", 67), ("soixante-huit", 68), ("soixante-neuf", 69), ("soixante-dix", 70), ("soixante et onze", 71),
    ("soixante-douze", 72), ("soixante-treize", 73), ("soixante-quatorze", 74), ("soixante-quinze", 75), ("soixante-seize", 76), ("soixante-dix-sept", 77),
    ("soixante-dix-huit", 78), ("soixante-dix-neuf", 79), ("quatre-vingts", 80), ("quatre-vingt-un", 81), ("quatre-vingt-deux", 82), ("quatre-vingt-trois", 83),
    ("quatre-vingt-quatre", 84), ("quatre-vingt-cinq", 85), ("quatre-vingt-six", 86), ("quatre-vingt-sept", 87), ("quatre-vingt-huit", 88), ("quatre-vingt-neuf", 89),
    ("quatre-vingt-dix", 90), ("quatre-vingt-onze", 91), ("quatre-vingt-douze", 92), ("quatre-vingt-treize", 93), ("quatre-vingt-quatorze", 94), ("quatre-vingt-quinze", 95),
    ("quatre-vingt-seize", 96), ("quatre-vingt-dix-sept", 97), ("quatre-vingt-dix-huit", 98), ("quatre-vingt-dix-neuf", 99), ("cent", 100), ("cent un", 101),
    ("cent deux", 102), ("cent trois", 103), ("cent quatre", 104), ("cent cinq", 105), ("cent six", 106), ("cent sept", 107),
    ("cent huit", 108), ("cent neuf", 109), ("cent dix", 110), ("cent onze", 111), ("cent douze", 112), ("cent treize", 113),
    ("cent quatorze", 114), ("cent quinze", 115), ("cent seize", 116), ("cent dix-sept", 117), ("cent dix-huit", 118), ("cent dix-neuf", 119),
    ("cent vingt", 120), ("cent vingt et un", 121), ("cent vingt-deux", 122), ("cent vingt-trois", 123), ("cent vingt-quatre", 124), ("cent vingt-cinq", 125),
    ("cent vingt-six", 126), ("cent vingt-sept", 127), ("cent vingt-huit", 128), ("cent vingt-neuf", 129), ("cent trente", 130), ("cent quarante", 140),
    ("cent cinquante", 150), ("cent soixante", 160), ("cent soixante-dix", 170), ("cent quatre-vingts", 180), ("cent quatre-vingt-dix", 190), ("deux cents", 200),
    ("dix sept", 17), ("dix huit", 18), ("dix neuf", 19), ("vingt deux", 22), ("vingt trois", 23), ("vingt quatre", 24),
    ("vingt cinq", 25), ("vingt six", 26), ("vingt sept", 27), ("vingt huit", 28), ("vingt neuf", 29), ("trente deux", 32),
    ("trente trois", 33), ("trente quatre", 34), ("trente cinq", 35), ("trente six", 36), ("trente sept", 37), ("trente huit", 38),
    ("trente neuf", 39), ("quarante deux", 42), ("quarante trois", 43), ("quarante quatre", 44), ("quarante cinq", 45), ("quarante six", 46),
    ("quarante sept", 47), ("quarante huit", 48), ("quarante neuf", 49), ("cinquante deux", 52), ("cinquante trois", 53), ("cinquante quatre", 54),
    ("cinquante cinq", 55), ("cinquante six", 56), ("cinquante sept", 57), ("cinquante huit", 58), ("cinquante neuf", 59), ("soixante deux", 62),
    ("soixante trois", 63), ("soixante quatre", 64), ("soixante cinq", 65), ("soixante six", 66), ("soixante sept", 67), ("soixante huit", 68),
    ("soixante neuf", 69)
  ]

/-- The full `fr` map: word entries followed by the numeric-string spread. -/
def frMap : List (String × Int) := frWords ++ numericStrings

/-- German word entries of `numberWordMaps.de` in `number-words.ts`, in source order. -/
def deWords : List (String × Int) :=
  [
    ("null", 0), ("eins", 1), ("zwei", 2), ("drei", 3), ("vier", 4), ("fünf", 5),
    ("sechs", 6), ("sieben", 7), ("acht", 8), ("neun", 9), ("zehn", 10), ("elf", 11),
    ("zwölf", 12), ("dreizehn", 13), ("vierzehn", 14), ("fünfzehn", 15), ("sechzehn", 16), ("siebzehn", 17),
    ("achtzehn", 18), ("neunzehn", 19), ("zwanzig", 20), ("einundzwanzig", 21), ("zweiundzwanzig", 22), ("dreiundzwanzig", 23),
    ("vierundzwanzig", 24), ("fünfundzwanzig", 25), ("sechsundzwanzig", 26), ("siebenundzwanzig", 27), ("achtundzwanzig", 28), ("neunundzwanzig", 29),
    ("dreißig", 30), ("einunddreißig", 31), ("zweiunddreißig", 32), ("dreiunddreißig", 33), ("vierunddreißig", 34), ("fünfunddreißig", 35),
    ("sechsunddreißig", 36), ("siebenunddreißig", 37), ("achtunddreißig", 38), ("neununddreißig", 39), ("vierzig", 40), ("einundvierzig", 41),
    ("zweiundvierzig", 42), ("dreiundvierzig", 43), ("vierundvierzig", 44), ("fünfundvierzig", 45), ("sechsundvierzig", 46), ("siebenundvierzig", 47),
    ("achtundvierzig", 48), ("neunundvierzig", 49), ("fünfzig", 50), ("einundfünfzig", 51), ("zweiundfünfzig", 52), ("dreiundfünfzig", 53),
    ("vierundfünfzig", 54), ("fünfundfünfzig", 55), ("sechsundfünfzig", 56), ("siebenundfünfzig", 57), ("achtundfünfzig", 58), ("neunundfünfzig", 59),
    ("sechzig", 60), ("einundsechzig", 61), ("zweiundsechzig", 62), ("dreiundsechzig", 63), ("vierundsechzig", 64), ("fünfundsechzig", 65),
    ("sechsundsechzig", 66), ("siebenundsechzig", 67), ("achtundsechzig", 68), ("neunundsechzig", 69), ("siebzig", 70), ("einundsiebzig", 71),
    ("zweiundsiebzig", 72), ("dreiundsiebzig", 73), ("vierundsiebzig", 74), ("fünfundsiebzig", 75), ("sechsundsiebzig", 76), ("siebenundsiebzig", 77),
    ("achtundsiebzig", 78), ("neunundsiebzig", 79), ("achtzig", 80), ("einundachtzig", 81), ("zweiundachtzig", 82), ("dreiundachtzig", 83),
    ("vierundachtzig", 84), ("fünfundachtzig", 85), ("sechsundachtzig", 86), ("siebenundachtzig", 87), ("achtundachtzig", 88), ("neunundachtzig", 89),
    ("neunzig", 90), ("einundneunzig", 91), ("zweiundneunzig", 92), ("dreiundneunzig", 93), ("vierundneunzig", 94), ("fünfundneunzig", 95),
    ("sechsundneunzig", 96), ("siebenundneunzig", 97), ("achtundneunzig", 98), ("neunundneunzig", 99), ("hundert", 100), ("einhundert", 100),
    ("hunderteins", 101), ("einhunderteins", 101), ("hundertzwei", 102), ("einhundertzwei", 102), ("hundertdrei", 103), ("einhundertdrei", 103),
    ("hundertvier", 104), ("einhundertvier", 104), ("hundertfünf", 105), ("einhundertfünf", 105), ("hundertsechs", 106), ("einhundertsechs", 106),
    ("hundertsieben", 107), ("einhundertsieben", 107), ("hundertacht", 108), ("einhundertacht", 108), ("hundertneun", 109), ("einhundertneun", 109),
    ("hundertzehn", 110), ("einhundertzehn", 110), ("hundertelf", 111), ("einhundertelf", 111), ("hundertzwölf", 112), ("einhundertzwölf", 112),
    ("hundertdreizehn", 113), ("einhundertdreizehn", 113), ("hundertvierzehn", 114), ("einhundertvierzehn", 114), ("hundertfünfzehn", 115), ("einhundertfünfzehn", 115),
    ("hundertsechzehn", 116), ("einhundertsechzehn", 116), ("hundertsiebzehn", 117), ("einhundertsiebzehn", 117), ("hundertachtzehn", 118), ("einhundertachtzehn", 118),
    ("hundertneunzehn", 119), ("einhundertneunzehn", 119), ("hundertzwanzig", 120), ("einhundertzwanzig", 120), ("hunderteinundzwanzig", 121), ("einhunderteinundzwanzig", 121),
    ("hundertneunundneunzig", 199), ("einhundertneunundneunzig", 199), ("zweihundert", 200)
  ]

/-- The full `de` map: word entries followed by the numeric-string spread. -/
def deMap : List (String × Int) := deWords ++ numericStrings

/-- Arabic word entries of `numberWordMaps.ar` in `number-words.ts`, in source order. -/
def arWords : List (String × Int) :=
  [
    ("صفر", 0), ("واحد", 1), ("واحِد", 1), ("اثنان", 2), ("إثنان", 2), ("اثنين", 2),
    ("ثلاثة", 3), ("أربعة", 4), ("خمسة", 5), ("ستة", 6), ("سبعة", 7), ("ثمانية", 8),
    ("تسعة", 9), ("عشرة", 10), ("أحد عشر", 11), ("اثنا عشر", 12), ("اثني عشر", 12), ("ثلاثة عشر", 13),
    ("أربعة عشر", 14), ("خمسة عشر", 15), ("ستة عشر", 16), ("سبعة عشر", 17), ("ثمانية عشر", 18), ("تسعة عشر", 19),
    ("عشرون", 20), ("واحد وعشرون", 21), ("اثنان وعشرون", 22), ("اثنين وعشرون", 22), ("ثلاثة وعشرون", 23), ("أربعة وعشرون", 24),
    ("خمسة وعشرون", 25), ("ستة وعشرون", 26), ("سبعة وعشرون", 27), ("ثمانية وعشرون", 28), ("تسعة وعشرون", 29), ("ثلاثون", 30),
    ("واحد وثلاثون", 31), ("اثنان وثلاثون", 32), ("اثنين وثلاثون", 32), ("ثلاثة وثلاثون", 33), ("أربعة وثلاثون", 34), ("خمسة وثلاثون", 35),
    ("ستة وثلاثون", 36), ("سبعة وثلاثون", 37), ("ثمانية وثلاثون", 38), ("تسعة وثلاثون", 39), ("أربعون", 40), ("واحد وأربعون", 41),
    ("اثنان وأربعون", 42), ("اثنين وأربعون", 42), ("ثلاثة وأربعون", 43), ("أربعة وأربعون", 44), ("خمسة وأربعون", 45), ("ستة وأربعون", 46),
    ("سبعة وأربعون", 47), ("ثمانية وأربعون", 48), ("تسعة وأربعون", 49), ("خمسون", 50), ("واحد وخمسون", 51), ("اثنان وخمسون", 52),
    ("اثنين وخمسون", 52), ("ثلاثة وخمسون", 53), ("أربعة وخمسون", 54), ("خمسة وخمسون", 55), ("ستة وخمسون", 56), ("سبعة وخمسون", 57),
    ("ثمانية وخمسون", 58), ("تسعة وخمسون", 59), ("ستون", 60), ("واحد وستون", 61), ("اثنان وستون", 62), ("اثنين وستون", 62),
    ("ثلاثة وستون", 63), ("أربعة وستون", 64), ("خمسة وستون", 65), ("ستة وستون", 66), ("سبعة وستون", 67), ("ثمانية وستون", 68),
    ("تسعة وستون", 69), ("سبعون", 70), ("واحد وسبعون", 71), ("اثنان وسبعون", 72), ("اثنين وسبعون", 72), ("ثلاثة وسبعون", 73),
    ("أربعة وسبعون", 74), ("خمسة وسبعون", 75), ("ستة وسبعون", 76), ("سبعة وسبعون", 77), ("ثمانية وسبعون", 78), ("تسعة وسبعون", 79),
    ("ثمانون", 80), ("واحد وثمانون", 81), ("اثنان وثمانون", 82), ("اثنين وثمانون", 82), ("ثلاثة وثمانون", 83), ("أربعة وثمانون", 84),
    ("خمسة وثمانون", 85), ("ستة وثمانون", 86), ("سبعة وثمانون", 87), ("ثمانية وثمانون", 88), ("تسعة وثمانون", 89), ("تسعون", 90),
    ("واحد وتسعون", 91), ("اثنان وتسعون", 92), ("اثنين وتسعون", 92), ("ثلاثة وتسعون", 93), ("أربعة وتسعون", 94), ("خمسة وتسعون", 95),
    ("ستة وتسعون", 96), ("سبعة وتسعون", 97), ("ثمانية وتسعون", 98), ("تسعة وتسعون", 99), ("مائة", 100), ("مائة وواحد", 101),
    ("مائة واثنان", 102), ("مائة واثنين", 102), ("مائة وثلاثة", 103), ("مائة وأربعة", 104), ("مائة وخمسة", 105), ("مائة وستة", 106),
    ("مائة وسبعة", 107), ("مائة وثمانية", 108), ("مائة وتسعة", 109), ("مائة وعشرة", 110), ("مائة وأحد عشر", 111), ("مائة واثنا عشر", 112),
    ("مائة واثني عشر", 112), ("مائة وثلاثة عشر", 113), ("مائة وأربعة عشر", 114), ("مائة وخمسة عشر", 115), ("مائة وستة عشر", 116), ("مائة وسبعة عشر", 117),
    ("مائة وثمانية عشر", 118), ("مائة وتسعة عشر", 119), ("مائة وعشرون", 120), ("مائة وواحد وعشرون", 121), ("مائة وتسعة وتسعون", 199), ("مائتان", 200)
  ]

/-- The full `ar` map: word entries followed by the numeric-string spreads. -/
def arMap : List (String × Int) := arWords ++ numericStrings ++ easternNumericStrings

/-- Japanese word entries of `numberWordMaps.ja` in `number-words.ts`, in source order. -/
def jaWords : List (String × Int) :=
  [
    ("ゼロ", 0), ("れい", 0), ("零", 0), ("いち", 1), ("一", 1), ("に", 2),
    ("二", 2), ("さん", 3), ("三", 3), ("よん", 4), ("し", 4), ("四", 4),
    ("ご", 5), ("五", 5), ("ろく", 6), ("六", 6), ("なな", 7), ("しち", 7),
    ("七", 7), ("はち", 8), ("八", 8), ("きゅう", 9), ("く", 9), ("九", 9),
    ("じゅう", 10), ("十", 10), ("じゅういち", 11), ("十一", 11), ("じゅうに", 12), ("十二", 12),
    ("じゅうさん", 13), ("十三", 13), ("じゅうよん", 14), ("じゅうし", 14), ("十四", 14), ("じゅうご", 15),
    ("十五", 15), ("じゅうろく", 16), ("十六", 16), ("じゅうなな", 17), ("じゅうしち", 17), ("十七", 17),
    ("じゅうはち", 18), ("十八", 18), ("じゅうきゅう", 19), ("じゅうく", 19), ("十九", 19), ("にじゅう", 20),
    ("二十", 20), ("にじゅういち", 21), ("二十一", 21), ("にじゅうに", 22), ("二十二", 22), ("にじゅうさん", 23),
    ("二十三", 23), ("にじゅうよん", 24), ("にじゅうし", 24), ("二十四", 24), ("にじゅうご", 25), ("二十五", 25),
    ("にじゅうろく", 26), ("二十六", 26), ("にじゅうなな", 27), ("にじゅうしち", 27), ("二十七", 27), ("にじゅうはち", 28),
    ("二十八", 28), ("にじゅうきゅう", 29), ("にじゅうく", 29), ("二十九", 29), ("さんじゅう", 30), ("三十", 30),
    ("さんじゅういち", 31), ("三十一", 31), ("さんじゅうに", 32), ("三十二", 32), ("さんじゅうさん", 33), ("三十三", 33),
    ("さんじゅうよん", 34), ("さんじゅうし", 34), ("三十四", 34), ("さんじゅうご", 35), ("三十五", 35), ("さんじゅうろく", 36),
    ("三十六", 36), ("さんじゅうなな", 37), ("さんじゅうしち", 37), ("三十七", 37), ("さんじゅうはち", 38), ("三十八", 38),
    ("さんじゅうきゅう", 39), ("さんじゅうく", 39), ("三十九", 39), ("よんじゅう", 40), ("四十", 40), ("よんじゅういち", 41),
    ("四十一", 41), ("よんじゅうに", 42), ("四十二", 42), ("よんじゅうさん", 43), ("四十三", 43), ("よんじゅうよん", 44),
    ("よんじゅうし", 44), ("四十四", 44), ("よんじゅうご", 45), ("四十五", 45), ("よんじゅうろく", 46), ("四十六", 46),
    ("よんじゅうなな", 47), ("よんじゅうしち", 47), ("四十七", 47), ("よんじゅうはち", 48), ("四十八", 48), ("よんじゅうきゅう", 49),
    ("よんじゅうく", 49), ("四十九", 49), ("ごじゅう", 50), ("五十", 50), ("ごじゅういち", 51), ("五十一", 51),
    ("ごじゅうに", 52), ("五十二", 52), ("ごじゅうさん", 53), ("五十三", 53), ("ごじゅうよん", 54), ("ごじゅうし", 54),
    ("五十四", 54), ("ごじゅうご", 55), ("五十五", 55), ("ごじゅうろく", 56), ("五十六", 56), ("ごじゅうなな", 57),
    ("ごじゅうしち", 57), ("五十七", 57), ("ごじゅうはち", 58), ("五十八", 58), ("ごじゅうきゅう", 59), ("ごじゅうく", 59),
    ("五十九", 59), ("ろくじゅう", 60), ("六十", 60), ("ろくじゅういち", 61), ("六十一", 61), ("ろくじゅうに", 62),
    ("六十二", 62), ("ろくじゅうさん", 63), ("六十三", 63), ("ろくじゅうよん", 64), ("ろくじゅうし", 64), ("六十四", 64),
    ("ろくじゅうご", 65), ("六十五", 65), ("ろくじゅうろく", 66), ("六十六", 66), ("ろくじゅうなな", 67), ("ろくじゅうしち", 67),
    ("六十七", 67), ("ろくじゅうはち", 68), ("六十八", 68), ("ろくじゅうきゅう", 69), ("ろくじゅうく", 69), ("六十九", 69),
    ("ななじゅう", 70), ("しちじゅう", 70), ("七十", 70), ("ななじゅういち", 71), ("七十一", 71), ("ななじゅうに", 72),
    ("七十二", 72), ("ななじゅうさん", 73), ("七十三", 73), ("ななじゅうよん", 74), ("ななじゅうし", 74), ("七十四", 74),
    ("ななじゅうご", 75), ("七十五", 75), ("ななじゅうろく", 76), ("七十六", 76), ("ななじゅうなな", 77), ("ななじゅうしち", 77),
    ("七十七", 77), ("ななじゅうはち", 78), ("七十八", 78), ("ななじゅうきゅう", 79), ("ななじゅうく", 79), ("七十九", 79),
    ("はちじゅう", 80), ("八十", 80), ("はちじゅういち", 81), ("八十一", 81), ("はちじゅうに", 82), ("八十二", 82),
    ("はちじゅうさん", 83), ("八十三", 83), ("はちじゅうよん", 84), ("はちじゅうし", 84), ("八十四", 84), ("はちじゅうご", 85),
    ("八十五", 85), ("はちじゅうろく", 86), ("八十六", 86), ("はちじゅうなな", 87), ("はちじゅうしち", 87), ("八十七", 87),
    ("はちじゅうはち", 88), ("八十八", 88), ("はちじゅうきゅう", 89), ("はちじゅうく", 89), ("八十九", 89), ("きゅうじゅう", 90),
    ("九十", 90), ("きゅうじゅういち", 91), ("九十一", 91), ("きゅうじゅうに", 92), ("九十二", 92), ("きゅうじゅうさん", 93),
    ("九十三", 93), ("きゅうじゅうよん", 94), ("きゅうじゅうし", 94), ("九十四", 94), ("きゅうじゅうご", 95), ("九十五", 95),
    ("きゅうじゅうろく", 96), ("九十六", 96), ("きゅうじゅうなな", 97), ("きゅうじゅうしち", 97), ("九十七", 97), ("きゅうじゅうはち", 98),
    ("九十八", 98), ("きゅうじゅうきゅう", 99), ("きゅうじゅうく", 99), ("九十九", 99), ("ひゃく", 100), ("百", 100),
    ("ひゃくいち", 101), ("百一", 101), ("ひゃくに", 102), ("百二", 102), ("ひゃくさん", 103), ("百三", 103),
    ("ひゃくよん", 104), ("ひゃくし", 104), ("百四", 104), ("ひゃくご", 105), ("百五", 105), ("ひゃくろく", 106),
    ("百六", 106), ("ひゃくなな", 107), ("ひゃくしち", 107), ("百七", 107), ("ひゃくはち", 108), ("百八", 108),
    ("ひゃくきゅう", 109), ("ひゃくく", 109), ("百九", 109), ("ひゃくじゅう", 110), ("百十", 110), ("ひゃくじゅういち", 111),
    ("百十一", 111), ("ひゃくじゅうに", 112), ("百十二", 112), ("ひゃくじゅうさん", 113), ("百十三", 113), ("ひゃくじゅうよん", 114),
    ("ひゃくじゅうし", 114), ("百十四", 114), ("ひゃくじゅうご", 115), ("百十五", 115), ("ひゃくじゅうろく", 116), ("百十六", 116),
    ("ひゃくじゅうなな", 117), ("ひゃくじゅうしち", 117), ("百十七", 117), ("ひゃくじゅうはち", 118), ("百十八", 118), ("ひゃくじゅうきゅう", 119),
    ("ひゃくじゅうく", 119), ("百十九", 119), ("ひゃくにじゅう", 120), ("百二十", 120), ("ひゃくさんじゅう", 130), ("百三十", 130),
    ("ひゃくよんじゅう", 140), ("百四十", 140), ("ひゃくごじゅう", 150), ("百五十", 150), ("ひゃくろくじゅう", 160), ("百六十", 160),
    ("ひゃくななじゅう", 170), ("百七十", 170), ("ひゃくはちじゅう", 180), ("百八十", 180), ("ひゃくきゅうじゅう", 190), ("百九十", 190),
    ("ひゃくきゅうじゅうきゅう", 199), ("百九十九", 199), ("にひゃく", 200), ("二百", 200)
  ]

/-- The full `ja` map: word entries followed by the numeric-string spread. -/
def jaMap : List (String × Int) := jaWords ++ numericStrings

/-- Embedding of the `numberWordMaps` constant of `number-words.ts`. -/
def numberWordMaps : List (String × List (String × Int)) :=
  [("en", enMap), ("it", itMap), ("es", esMap), ("fr", frMap), ("de", deMap), ("ar", arMap),
    ("ja", jaMap)]

/-- JavaScript object-literal lookup on an association list: a later binding
for the same key overrides an earlier one, as when the object is built. -/
def jsGet {α : Type} (m : List (String × α)) (k : String) : Option α :=
  m.foldl (fun acc p => if p.1 = k then some p.2 else acc) none

/-- The language options offered by `SpeechToNumberComponent.languages`. -/
def languageCodes : List String := ["en", "it", "es", "fr", "de", "ar", "ja"]

/-- Outcome of one `parseSpeechToNumber` call: either `recognizedNumber` is
set to a value, or `recognizedNumber` is set to `null` and `errorMessage` is
set to the given message. -/
inductive ParseResult where
  | recognized (n : Int)
  | failed (message : String)
deriving DecidableEq, Repr

/-- `s.toLowerCase()`: lowercase character by character (the embedding
lowercases the ASCII range; the utterances the claims quantify over and the
digit strings are unaffected by the difference on exotic letters). -/
def jsToLowerCase (s : String) : String := ⟨s.data.map Char.toLower⟩

/-- `s.trim()`: drop whitespace from both ends. -/
def jsTrim (s : String) : String :=
  ⟨(((s.data.dropWhile Char.isWhitespace).reverse).dropWhile Char.isWhitespace).reverse⟩

/-- `speech.toLowerCase().trim()` from `parseSpeechToNumber`. -/
def cleanedOf (speech : String) : String := jsTrim (jsToLowerCase speech)

/-- Cut a character list at every whitespace character, keeping the pieces. -/
def wsSplitAux : List Char → List Char → List (List Char)
  | [], acc => [acc.reverse]
  | c :: rest, acc =>
    if c.isWhitespace then acc.reverse :: wsSplitAux rest [] else wsSplitAux rest (c :: acc)

/-- `s.split(/\s+/)` on a trimmed string: the maximal whitespace runs act as
separators. Cutting at every whitespace character and dropping the empty
pieces yields exactly the tokens of the regex split on a trimmed input — the
dropped empty strings are not a key of any language map, so the token scan
of `parseSpeechToNumber` is unaffected by them. -/
def jsSplitWs (s : String) : List String :=
  ((wsSplitAux s.data []).map String.mk).filter (fun t => t != "")

/-- `parseInt(s, 10)` of JavaScript on a trimmed string: an optional sign
followed by a longest run of decimal digits; `NaN` (here `none`) when the
run is empty. -/
def jsParseInt (s : String) : Option Int :=
  let digitsVal : List Char → Option Nat := fun cs =>
    let ds := cs.takeWhile (·.isDigit)
    if ds.isEmpty then none else some (ds.foldl (fun a c => 10 * a + (c.toNat - 48)) 0)
  match s.toList with
  | '-' :: rest => (digitsVal rest).map (fun v => -(v : Int))
  | '+' :: rest => (digitsVal rest).map (fun v => (v : Int))
  | cs => (digitsVal cs).map (fun v => (v : Int))

/-- The error message `parseSpeechToNumber` stores in `errorMessage` when no
number between 1 and 50 can be recognized. -/
def noNumberMessage (speech : String) : String :=
  "Impossibile riconoscere un numero tra 1 e 50 da: \"" ++ speech ++ "\""

/-- The cascade of `parseSpeechToNumber` once the language map is fixed:
direct lookup of the cleaned utterance, then the leftmost whitespace-split
token that is a key, then the `parseInt` fallback restricted to 1 … 50
(`cleanedOf speech` is the `cleanedSpeech` local of the source, inlined). -/
def parseWithMap (langMap : List (String × Int)) (speech : String) : ParseResult :=
  match jsGet langMap (cleanedOf speech) with
  | some v => .recognized v
  | none =>
    match (jsSplitWs (cleanedOf speech)).findSome? (fun w => jsGet langMap w) with
    | some v => .recognized v
    | none =>
      match jsParseInt (cleanedOf speech) with
      | some numericValue =>
        if 1 ≤ numericValue ∧ numericValue ≤ 50 then
          if jsGet langMap (toString numericValue) = some numericValue then
            .recognized numericValue
          else
            .failed (noNumberMessage speech)
        else
          .failed (noNumberMessage speech)
      | none =>
        .failed (noNumberMessage speech)

/-- Embedding of `SpeechToNumberComponent.parseSpeechToNumber`: resolve the
language map from the part of `selectedLanguage` before any dash and run the cascade. -/
def parseSpeechToNumber (selectedLanguage speech : String) : ParseResult :=
  let currentLangCode := String.mk (selectedLanguage.data.takeWhile (fun c => c != '-'))
  match jsGet numberWordMaps currentLangCode with
  | none => .failed ("Mappa numerica non trovata per la lingua: " ++ currentLangCode)
  | some langMap => parseWithMap langMap speech

/-! ### Lookup lemmas for the word maps -/

theorem jsGet_foldl_acc {α : Type} (m : List (String × α)) (k : String) (acc : Option α) :
    m.foldl (fun acc p => if p.1 = k then some p.2 else acc) acc =
      match jsGet m k with
      | some v => some v
      | none => acc := by
  induction m generalizing acc with
  | nil => simp [jsGet]
  | cons p t ih =>
    simp only [jsGet, List.foldl_cons]
    rw [ih ((if p.1 = k then some p.2 else acc)), ih ((if p.1 = k then some p.2 else none))]
    cases h : jsGet t k
    · by_cases hpk : p.1 = k
      · simp [hpk]
      · simp [hpk]
    · rfl

theorem jsGet_append {α : Type} (a b : List (String × α)) (k : String) :
    jsGet (a ++ b) k =
      match jsGet b k with
      | some v => some v
      | none => jsGet a k := by
  simp only [jsGet, List.foldl_append]
  rw [jsGet_foldl_acc b k, jsGet_foldl_acc a k]
  rfl

theorem numericStrings_key {n : Nat} (h : n ≤ 200) :
    jsGet numericStrings (Nat.repr n) = some (n : Int) := by
  have hall : ((List.range 201).all
      (fun i => jsGet numericStrings (Nat.repr i) == some (i : Int))) = true := by rfl
  have := List.all_eq_true.mp hall n (List.mem_range.mpr (by omega))
  exact eq_of_beq this

theorem easternNumericStrings_miss {n : Nat} (h : n ≤ 200) :
    jsGet easternNumericStrings (Nat.repr n) = none := by
  have hall : ((List.range 201).all
      (fun i => jsGet easternNumericStrings (Nat.repr i) == (none : Option Int))) = true := by
    rfl
  have := List.all_eq_true.mp hall n (List.mem_range.mpr (by omega))
  exact eq_of_beq this

theorem mem_numericStrings_val {p : String × Int} (hp : p ∈ numericStrings) :
    0 ≤ p.2 ∧ p.2 ≤ 200 := by
  simp only [numericStrings, List.mem_map, List.mem_range] at hp
  obtain ⟨i, hi, rfl⟩ := hp
  constructor <;> simp <;> omega

theorem mem_easternNumericStrings_val {p : String × Int} (hp : p ∈ easternNumericStrings) :
    0 ≤ p.2 ∧ p.2 ≤ 200 := by
  simp only [easternNumericStrings, List.mem_map, List.mem_range] at hp
  obtain ⟨i, hi, rfl⟩ := hp
  constructor <;> simp <;> omega

theorem wordsMap_key (w : List (String × Int)) {n : Nat} (h : n ≤ 200) :
    jsGet (w ++ numericStrings) (Nat.repr n) = some (n : Int) := by
  rw [jsGet_append, numericStrings_key h]

theorem arMap_key {n : Nat} (h : n ≤ 200) :
    jsGet arMap (Nat.repr n) = some (n : Int) := by
  show jsGet (arWords ++ (numericStrings ++ easternNumericStrings)) (Nat.repr n) = some (n : Int)
  rw [jsGet_append, jsGet_append, easternNumericStrings_miss h, numericStrings_key h]

theorem all_val_bound (m : List (String × Int))
    (h : (m.all (fun p => decide (0 ≤ p.2) && decide (p.2 ≤ 200))) = true) :
    ∀ p ∈ m, 0 ≤ p.2 ∧ p.2 ≤ 200 := by
  intro p hp
  have hb := List.all_eq_true.mp h p hp
  simpa using hb

theorem append_val_bound {w : List (String × Int)}
    (hw : ∀ p ∈ w, 0 ≤ p.2 ∧ p.2 ≤ 200) :
    ∀ p ∈ w ++ numericStrings, 0 ≤ p.2 ∧ p.2 ≤ 200 := by
  intro p hp
  rcases List.mem_append.mp hp with h | h
  · exact hw p h
  · exact mem_numericStrings_val h

/-- C5: for each of the seven supported language codes, the language's map
resolves in `numberWordMaps`, every value in the map lies in 0 … 200, and
for every `n ≤ 200` the decimal string of `n` is a key of the map whose
(final, in object-literal override order) value is `n`. -/
theorem numberWordMaps_complete :
    ∀ code ∈ languageCodes, ∃ m, jsGet numberWordMaps code = some m ∧
      (∀ p ∈ m, 0 ≤ p.2 ∧ p.2 ≤ 200) ∧
      (∀ n : Nat, n ≤ 200 → jsGet m (Nat.repr n) = some (n : Int)) := by
  intro code hc
  simp only [languageCodes, List.mem_cons, List.not_mem_nil, or_false] at hc
  rcases hc with rfl | rfl | rfl | rfl | rfl | rfl | rfl
  · exact ⟨enMap, rfl, append_val_bound (all_val_bound enWords (by rfl)), fun n hn => wordsMap_key _ hn⟩
  · exact ⟨itMap, rfl, append_val_bound (all_val_bound itWords (by rfl)), fun n hn => wordsMap_key _ hn⟩
  · exact ⟨esMap, rfl, append_val_bound (all_val_bound esWords (by rfl)), fun n hn => wordsMap_key _ hn⟩
  · exact ⟨frMap, rfl, append_val_bound (all_val_bound frWords (by rfl)), fun n hn => wordsMap_key _ hn⟩
  · exact ⟨deMap, rfl, append_val_bound (all_val_bound deWords (by rfl)), fun n hn => wordsMap_key _ hn⟩
  · refine ⟨arMap, rfl, ?_, fun n hn => arMap_key hn⟩
    intro p hp
    rcases List.mem_append.mp hp with h | h
    · exact append_val_bound (all_val_bound arWords (by rfl)) p h
    · exact mem_easternNumericStrings_val h
  · exact ⟨jaMap, rfl, append_val_bound (all_val_bound jaWords (by rfl)), fun n hn => wordsMap_key _ hn⟩

/-- Closed witness for `numberWordMaps_complete` at the Italian map. -/
theorem numberWordMaps_complete_witness :
    ∃ m, jsGet numberWordMaps "it" = some m ∧
      (∀ p ∈ m, 0 ≤ p.2 ∧ p.2 ≤ 200) ∧
      (∀ n : Nat, n ≤ 200 → jsGet m (Nat.repr n) = some (n : Int)) :=
  numberWordMaps_complete "it" (by decide)

theorem cleaned_digits {n : Nat} (h : n ≤ 200) : cleanedOf (Nat.repr n) = Nat.repr n := by
  have hall : ((List.range 201).all (fun i => cleanedOf (Nat.repr i) == Nat.repr i)) = true := by
    rfl
  exact eq_of_beq (List.all_eq_true.mp hall n (List.mem_range.mpr (by omega)))

theorem parseWithMap_digit {m : List (String × Int)} {n : Nat} (hn : n ≤ 200)
    (hkey : jsGet m (Nat.repr n) = some (n : Int)) :
    parseWithMap m (Nat.repr n) = ParseResult.recognized (n : Int) := by
  unfold parseWithMap
  simp only [cleaned_digits hn, hkey]

/-- C6: digit round-trip — for every supported language and every `n ≤ 200`,
parsing the decimal string of `n` with that language selected recognizes `n`
(the result is `recognized`, so no error is reported). -/
theorem parse_digit_roundtrip :
    ∀ code ∈ languageCodes, ∀ n : Nat, n ≤ 200 →
      parseSpeechToNumber code (Nat.repr n) = ParseResult.recognized (n : Int) := by
  intro code hc n hn
  simp only [languageCodes, List.mem_cons, List.not_mem_nil, or_false] at hc
  rcases hc with rfl | rfl | rfl | rfl | rfl | rfl | rfl
  · exact parseWithMap_digit hn (wordsMap_key enWords hn)
  · exact parseWithMap_digit hn (wordsMap_key itWords hn)
  · exact parseWithMap_digit hn (wordsMap_key esWords hn)
  · exact parseWithMap_digit hn (wordsMap_key frWords hn)
  · exact parseWithMap_digit hn (wordsMap_key deWords hn)
  · exact parseWithMap_digit hn (arMap_key hn)
  · exact parseWithMap_digit hn (wordsMap_key jaWords hn)

/-- Closed witness for `parse_digit_roundtrip`: saying "150" in Italian. -/
theorem parse_digit_roundtrip_witness :
    parseSpeechToNumber "it" (Nat.repr 150) = ParseResult.recognized 150 :=
  parse_digit_roundtrip "it" (by decide) 150 (by decide)

theorem parseWithMap_recognized_iff (m : List (String × Int)) (speech : String) (k : Int) :
    parseWithMap m speech = ParseResult.recognized k ↔
      (jsGet m (cleanedOf speech) = some k ∨
        (jsGet m (cleanedOf speech) = none ∧
          (jsSplitWs (cleanedOf speech)).findSome? (fun w => jsGet m w) = some k) ∨
        (jsGet m (cleanedOf speech) = none ∧
          (jsSplitWs (cleanedOf speech)).findSome? (fun w => jsGet m w) = none ∧
          jsParseInt (cleanedOf speech) = some k ∧ 1 ≤ k ∧ k ≤ 50 ∧
          jsGet m (toString k) = some k)) := by
  constructor
  · intro h
    unfold parseWithMap at h
    split at h
    · rename_i v hv
      cases h
      exact Or.inl hv
    · rename_i hv
      split at h
      · rename_i v ht
        cases h
        exact Or.inr (Or.inl ⟨hv, ht⟩)
      · rename_i ht
        split at h
        · rename_i v hp
          split at h
          · rename_i hrange
            split at h
            · rename_i hkey
              cases h
              exact Or.inr (Or.inr ⟨hv, ht, hp, hrange.1, hrange.2, hkey⟩)
            · cases h
          · cases h
        · cases h
  · intro h
    unfold parseWithMap
    rcases h with hkey | ⟨hv, ht⟩ | ⟨hv, ht, hp, h1, h50, hkey⟩
    · simp only [hkey]
    · simp only [hv, ht]
    · simp [hv, ht, hp, h1, h50, hkey]

theorem parseWithMap_failed (m : List (String × Int)) (speech : String)
    (h : ¬ ∃ k : Int, parseWithMap m speech = ParseResult.recognized k) :
    parseWithMap m speech = ParseResult.failed (noNumberMessage speech) := by
  unfold parseWithMap at h ⊢
  split
  · rename_i v hv
    exact absurd ⟨v, by simp [hv]⟩ h
  · rename_i hv
    split
    · rename_i v ht
      exact absurd ⟨v, by simp [hv, ht]⟩ h
    · rename_i ht
      split
      · rename_i v hp
        split
        · rename_i hrange
          split
          · rename_i hkey
            exact absurd ⟨v, by simp [hv, ht, hp, hrange, hkey]⟩ h
          · rfl
        · rfl
      · rfl

/-- C3 (amended): once the selected language's map is resolved,
`parseSpeechToNumber` sets `recognizedNumber` to `k` exactly when the
lowercased trimmed utterance is a key of the map with value `k`, or — when it
is not a key — the leftmost whitespace-separated token that is a key has
value `k`, or — when no token is a key — `parseInt` yields `k` with
`1 ≤ k ≤ 50` and the decimal string of `k` maps to `k`; for every other
utterance it sets `recognizedNumber` to `null` and reports the error
message. -/
theorem parse_characterization (selectedLanguage speech : String)
    (m : List (String × Int))
    (hm : jsGet numberWordMaps
      (String.mk (selectedLanguage.data.takeWhile (fun c => c != '-'))) = some m) :
    (∀ k : Int, parseSpeechToNumber selectedLanguage speech = ParseResult.recognized k ↔
      (jsGet m (cleanedOf speech) = some k ∨
        (jsGet m (cleanedOf speech) = none ∧
          (jsSplitWs (cleanedOf speech)).findSome? (fun w => jsGet m w) = some k) ∨
        (jsGet m (cleanedOf speech) = none ∧
          (jsSplitWs (cleanedOf speech)).findSome? (fun w => jsGet m w) = none ∧
          jsParseInt (cleanedOf speech) = some k ∧ 1 ≤ k ∧ k ≤ 50 ∧
          jsGet m (toString k) = some k))) ∧
    ((¬ ∃ k : Int,
      (jsGet m (cleanedOf speech) = some k ∨
        (jsGet m (cleanedOf speech) = none ∧
          (jsSplitWs (cleanedOf speech)).findSome? (fun w => jsGet m w) = some k) ∨
        (jsGet m (cleanedOf speech) = none ∧
          (jsSplitWs (cleanedOf speech)).findSome? (fun w => jsGet m w) = none ∧
          jsParseInt (cleanedOf speech) = some k ∧ 1 ≤ k ∧ k ≤ 50 ∧
          jsGet m (toString k) = some k))) →
      parseSpeechToNumber selectedLanguage speech =
        ParseResult.failed (noNumberMessage speech)) := by
  have hps : parseSpeechToNumber selectedLanguage speech = parseWithMap m speech := by
    unfold parseSpeechToNumber
    simp only [hm]
  refine ⟨fun k => ?_, fun hn => ?_⟩
  · rw [hps]
    exact parseWithMap_recognized_iff m speech k
  · rw [hps]
    refine parseWithMap_failed m speech ?_
    rintro ⟨k, hk⟩
    exact hn ⟨k, (parseWithMap_recognized_iff m speech k).mp hk⟩

/-- Closed witness for `parse_characterization`: the English utterance
"Twenty One " is recognized as 21 through the direct key lookup. -/
theorem parse_characterization_witness :
    parseSpeechToNumber "en" "Twenty One " = ParseResult.recognized 21 := by
  have h := parse_characterization "en" "Twenty One " enMap (by rfl)
  exact (h.1 21).mpr (Or.inl (by decide))

/-- C3 counterexample: the English utterance "five five" is not a key of the
English map, yet `parseSpeechToNumber` recognizes 5 through the token
fallback instead of reporting an error — so the parser is not the pure
dictionary lookup the claim states. -/
theorem parse_lookup_only_counterexample :
    jsGet enMap (cleanedOf "five five") = none ∧
    parseSpeechToNumber "en" "five five" = ParseResult.recognized 5 := by
  constructor
  · decide
  · decide

/-- C9: the fallback order of `parseSpeechToNumber` — when the cleaned
utterance is not itself a key, the value of the leftmost whitespace-separated
token that is a key is returned (`List.findSome?` scans left to right); when
no token is a key either, the parse succeeds with `v` exactly when
`parseInt` yields `v`, `1 ≤ v ≤ 50`, and the decimal string of `v` maps to
`v`. -/
theorem parse_fallback_order (selectedLanguage speech : String)
    (m : List (String × Int))
    (hm : jsGet numberWordMaps
      (String.mk (selectedLanguage.data.takeWhile (fun c => c != '-'))) = some m)
    (hmiss : jsGet m (cleanedOf speech) = none) :
    (∀ v : Int, (jsSplitWs (cleanedOf speech)).findSome? (fun w => jsGet m w) = some v →
      parseSpeechToNumber selectedLanguage speech = ParseResult.recognized v) ∧
    ((jsSplitWs (cleanedOf speech)).findSome? (fun w => jsGet m w) = none →
      ∀ v : Int, (parseSpeechToNumber selectedLanguage speech = ParseResult.recognized v ↔
        (jsParseInt (cleanedOf speech) = some v ∧ 1 ≤ v ∧ v ≤ 50 ∧
          jsGet m (toString v) = some v))) := by
  have hps : parseSpeechToNumber selectedLanguage speech = parseWithMap m speech := by
    unfold parseSpeechToNumber
    simp only [hm]
  constructor
  · intro v ht
    rw [hps]
    exact (parseWithMap_recognized_iff m speech v).mpr (Or.inr (Or.inl ⟨hmiss, ht⟩))
  · intro ht v
    rw [hps, parseWithMap_recognized_iff m speech v]
    constructor
    · rintro (hk | ⟨_, ht2⟩ | ⟨_, _, hp, h1, h50, hkey⟩)
      · rw [hmiss] at hk
        cases hk
      · rw [ht] at ht2
        cases ht2
      · exact ⟨hp, h1, h50, hkey⟩
    · rintro ⟨hp, h1, h50, hkey⟩
      exact Or.inr (Or.inr ⟨hmiss, ht, hp, h1, h50, hkey⟩)

/-- Closed witness for `parse_fallback_order`: the utterance "12." is not a
key and has no key token, but `parseInt` reads 12, so it is recognized
as 12. -/
theorem parse_fallback_order_witness :
    parseSpeechToNumber "en" "12." = ParseResult.recognized 12 := by
  have h := parse_fallback_order "en" "12." enMap (by rfl) (by decide)
  exact (h.2 (by decide) 12).mpr (by decide)

/-! ### List access helpers -/

theorem getD_set_self {α : Type} (l : List α) (i : Nat) (v d : α) (h : i < l.length) :
    (l.set i v).getD i d = v := by
  induction l generalizing i with
  | nil => simp at h
  | cons a t ih =>
    cases i with
    | zero => rfl
    | succ n => exact ih n (by simpa using h)

theorem getD_set_ne {α : Type} (l : List α) (i j : Nat) (v d : α) (h : i ≠ j) :
    (l.set i v).getD j d = l.getD j d := by
  induction l generalizing i j with
  | nil => simp
  | cons a t ih =>
    cases i with
    | zero =>
      cases j with
      | zero => exact absurd rfl h
      | succ nj => rfl
    | succ ni =>
      cases j with
      | zero => rfl
      | succ nj => exact ih ni nj (by omega)

/-! ### The scan invariant behind C2 -/

/-- Invariant of the content-script state: the tracked numbers are exactly
2, 4, …, 2·k in order, `nextNumber` is 2·k + 1, every tracked label shows
the braces-wrapped decimal of its number, and at most 100 elements are
tracked. -/
def ScanInv (st : CState) : Prop :=
  st.clickableElements.map (·.number) =
    (List.range st.clickableElements.length).map (fun j => 2 * j + 2) ∧
  st.nextNumber = 2 * st.clickableElements.length + 1 ∧
  (∀ info ∈ st.clickableElements, info.labelElement.text = bracesText info.number) ∧
  st.clickableElements.length ≤ 100

theorem scanInv_clearNumbers (st : CState) : ScanInv (clearNumbers st) := by
  refine ⟨?_, ?_, ?_, ?_⟩ <;> simp [clearNumbers, ScanInv]

theorem scanInv_processElement (page : List ElemProps) (vp : Viewport) (st : CState) (i : Nat)
    (h : ScanInv st) : ScanInv (processElement page vp st i) := by
  obtain ⟨hmap, hnn, hlab, hlen⟩ := h
  unfold processElement
  split
  · exact ⟨hmap, hnn, hlab, hlen⟩
  · split
    · exact ⟨hmap, hnn, hlab, hlen⟩
    · split
      · exact ⟨hmap, hnn, hlab, hlen⟩
      · rename_i hcap _ _
        have hle : st.nextNumber ≤ 200 := by
          simpa [MAX_ELEMENTS_TO_NUMBER] using hcap
        refine ⟨?_, ?_, ?_, ?_⟩
        · simp only [List.map_append, List.length_append, List.length_map, List.map_cons,
            List.map_nil, List.length_cons, List.length_nil, hmap]
          rw [List.range_succ, List.map_append]
          simp [hnn]
        · simp [hnn]
          omega
        · intro info hinfo
          rcases List.mem_append.mp hinfo with hmem | hmem
          · exact hlab info hmem
          · simp at hmem
            subst hmem
            rfl
        · simp only [List.length_append, List.length_cons, List.length_nil]
          omega

theorem scanInv_foldl (page : List ElemProps) (vp : Viewport) (l : List Nat) (st : CState)
    (h : ScanInv st) : ScanInv (l.foldl (processElement page vp) st) := by
  induction l generalizing st with
  | nil => exact h
  | cons a t ih => exact ih _ (scanInv_processElement page vp st a h)

theorem scanInv_find (page : List ElemProps) (vp : Viewport) (st : CState) :
    ScanInv (findAndNumberClickableElements page vp st) :=
  scanInv_foldl page vp _ _ (scanInv_clearNumbers st)

theorem scanInv_handleRequest (page : List ElemProps) (vp : Viewport) (dyn : Nat → DynElem)
    (st : CState) (req : Request) (h : ScanInv st) :
    ScanInv (handleRequest page vp dyn st req).1 := by
  cases req with
  | numberClickables => exact scanInv_find page vp st
  | clickElement n =>
    simp only [handleRequest]
    cases hf : st.clickableElements.find? (fun item => decide ((item.number : Int) = n)) with
    | some info =>
      by_cases hc : ((dyn info.element).inBody &&
          isElementVisible vp (dyn info.element).style (dyn info.element).rect) = true
      · simp only [if_pos hc]
        exact scanInv_clearNumbers st
      · simp only [if_neg hc]
        exact scanInv_clearNumbers st
    | none => exact h
  | clearNumbers => exact scanInv_clearNumbers st
  | scrollUp => exact h
  | scrollDown => exact h

theorem scanInv_runSteps_general (steps : List StepInput) (st : CState) (h : ScanInv st) :
    ScanInv (runSteps st steps) := by
  induction steps generalizing st with
  | nil => exact h
  | cons s t ih =>
    exact ih _ (scanInv_handleRequest s.page s.vp s.dyn st s.req h)

theorem scanInv_initState (mut0 : List ElemMut) : ScanInv (initState mut0) := by
  refine ⟨rfl, rfl, ?_, by simp [initState]⟩
  intro info hinfo
  simp [initState] at hinfo

theorem scanInv_runSteps (mut0 : List ElemMut) (steps : List StepInput) :
    ScanInv (runSteps (initState mut0) steps) :=
  scanInv_runSteps_general steps _ (scanInv_initState mut0)

/-- C2: in every state reachable by the message loop from a freshly injected
content script, the tracked numbers are strictly increasing even integers
between 2 and `MAX_ELEMENTS_TO_NUMBER` (which is 200), every tracked
label's text is the braces-wrapped decimal of its element's stored number,
the numbers are pairwise distinct, and at most 100 elements are tracked. -/
theorem tracked_state_invariant (mut0 : List ElemMut) (steps : List StepInput) :
    List.Pairwise (· < ·)
      ((runSteps (initState mut0) steps).clickableElements.map (·.number)) ∧
    (∀ n ∈ (runSteps (initState mut0) steps).clickableElements.map (·.number),
      2 ∣ n ∧ 2 ≤ n ∧ n ≤ MAX_ELEMENTS_TO_NUMBER) ∧
    (∀ info ∈ (runSteps (initState mut0) steps).clickableElements,
      info.labelElement.text = bracesText info.number) ∧
    ((runSteps (initState mut0) steps).clickableElements.map (·.number)).Nodup ∧
    (runSteps (initState mut0) steps).clickableElements.length ≤ 100 ∧
    MAX_ELEMENTS_TO_NUMBER = 200 := by
  obtain ⟨hmap, hnn, hlab, hlen⟩ := scanInv_runSteps mut0 steps
  have hpair : List.Pairwise (· < ·)
      ((runSteps (initState mut0) steps).clickableElements.map (·.number)) := by
    rw [hmap]
    exact (List.pairwise_lt_range _).map _ (fun a b hab => by omega)
  refine ⟨hpair, ?_, hlab, hpair.imp (fun hab => Nat.ne_of_lt hab), hlen, rfl⟩
  intro n hn
  rw [hmap] at hn
  simp only [List.mem_map, List.mem_range] at hn
  obtain ⟨j, hj, rfl⟩ := hn
  refine ⟨⟨j + 1, by ring⟩, by omega, ?_⟩
  simp only [MAX_ELEMENTS_TO_NUMBER]
  omega

/-! ### Pure mirror of the scan loop -/

/-- Pure mirror of the scan loop on the (marker, counter) projection:
processing the queried indices with marker assignment `marks` and counter
`nn`, collect the selected (element, assigned number) pairs. -/
def specSelect (page : List ElemProps) (vp : Viewport) :
    List Nat → (Nat → Bool) → Nat → List (Nat × Nat)
  | [], _, _ => []
  | i :: rest, marks, nn =>
    if nn > MAX_ELEMENTS_TO_NUMBER then specSelect page vp rest marks nn
    else if marks i || !(visibleAt vp page i) then specSelect page vp rest marks nn
    else if marks i || (page.getD i defaultProps).ancestors.any marks then
      specSelect page vp rest marks nn
    else
      (i, nn + 1) ::
        specSelect page vp rest (fun j => if j = i then true else marks j) (nn + 2)

/-- The tracked entry the scan records for a selected (element, number) pair,
reading the styles the element had when it was processed. -/
def mkInfo (page : List ElemProps) (elems : List ElemMut) (p : Nat × Nat) :
    ClickableElementInfo :=
  ⟨p.1, p.2, ⟨p.1, p.2, bracesText p.2⟩,
    (if computedPosition page elems p.1 == "static" then some "static" else none),
    (if computedOverflow page elems p.1 == "hidden" then some "hidden" else none)⟩

/-- The element state the scan leaves on a selected element: marker set, and
`position` / `overflow` adjusted when they computed to static / hidden. -/
def styleAdjust (page : List ElemProps) (elems : List ElemMut) (i : Nat) : ElemMut :=
  let m := elems.getD i defaultMut
  { navAssigned := true
    stylePosition :=
      if computedPosition page elems i == "static" then "relative" else m.stylePosition
    styleOverflow :=
      if computedOverflow page elems i == "hidden" then "visible" else m.styleOverflow }

theorem specSelect_fst_sublist (page : List ElemProps) (vp : Viewport) (l : List Nat)
    (marks : Nat → Bool) (nn : Nat) :
    ((specSelect page vp l marks nn).map Prod.fst).Sublist l := by
  induction l generalizing marks nn with
  | nil => simp [specSelect]
  | cons i rest ih =>
    rw [specSelect]
    split
    · exact (ih _ _).cons i
    · split
      · exact (ih _ _).cons i
      · split
        · exact (ih _ _).cons i
        · simpa using (ih _ _).cons₂ i

theorem mem_specSelect_fst {page : List ElemProps} {vp : Viewport} {l : List Nat}
    {marks : Nat → Bool} {nn : Nat} {p : Nat × Nat}
    (hp : p ∈ specSelect page vp l marks nn) : p.1 ∈ l :=
  (specSelect_fst_sublist page vp l marks nn).mem (List.mem_map_of_mem Prod.fst hp)

theorem mkInfo_congr (page : List ElemProps) (e1 e2 : List ElemMut) (p : Nat × Nat)
    (h : e1.getD p.1 defaultMut = e2.getD p.1 defaultMut) :
    mkInfo page e1 p = mkInfo page e2 p := by
  unfold mkInfo computedPosition computedOverflow
  rw [h]

theorem styleAdjust_congr (page : List ElemProps) (e1 e2 : List ElemMut) (i : Nat)
    (h : e1.getD i defaultMut = e2.getD i defaultMut) :
    styleAdjust page e1 i = styleAdjust page e2 i := by
  unfold styleAdjust computedPosition computedOverflow
  rw [h]

theorem foldl_process_spec (page : List ElemProps) (vp : Viewport) :
    ∀ (l : List Nat) (st : CState), l.Nodup → (∀ i ∈ l, i < st.elems.length) →
    (l.foldl (processElement page vp) st).clickableElements =
        st.clickableElements ++
          (specSelect page vp l (marksOf st) st.nextNumber).map (mkInfo page st.elems) ∧
    (l.foldl (processElement page vp) st).labels =
        st.labels ++
          (specSelect page vp l (marksOf st) st.nextNumber).map
            (fun p => (⟨p.1, p.2, bracesText p.2⟩ : LabelNode)) ∧
    (l.foldl (processElement page vp) st).nextNumber =
        st.nextNumber + 2 * (specSelect page vp l (marksOf st) st.nextNumber).length ∧
    (l.foldl (processElement page vp) st).elems.length = st.elems.length ∧
    (∀ j, marksOf (l.foldl (processElement page vp) st) j =
      (marksOf st j ||
        ((specSelect page vp l (marksOf st) st.nextNumber).map Prod.fst).contains j)) ∧
    (∀ j, (∀ p ∈ specSelect page vp l (marksOf st) st.nextNumber, p.1 ≠ j) →
      (l.foldl (processElement page vp) st).elems.getD j defaultMut =
        st.elems.getD j defaultMut) ∧
    (∀ p ∈ specSelect page vp l (marksOf st) st.nextNumber,
      (l.foldl (processElement page vp) st).elems.getD p.1 defaultMut =
        styleAdjust page st.elems p.1) := by
  intro l
  induction l with
  | nil =>
    intro st _ _
    simp [specSelect]
  | cons i rest ih =>
    intro st hnd hlen
    have hirest : i ∉ rest := (List.nodup_cons.mp hnd).1
    have hndr : rest.Nodup := (List.nodup_cons.mp hnd).2
    have hi : i < st.elems.length := hlen i (List.mem_cons_self i rest)
    rw [List.foldl_cons]
    by_cases h1 : st.nextNumber > MAX_ELEMENTS_TO_NUMBER
    · have hpe : processElement page vp st i = st := by
        unfold processElement
        rw [if_pos h1]
      rw [hpe, specSelect, if_pos h1]
      exact ih st hndr (fun k hk => hlen k (List.mem_cons_of_mem i hk))
    · by_cases h2 : (marksOf st i || !(visibleAt vp page i)) = true
      · have hpe : processElement page vp st i = st := by
          unfold processElement
          rw [if_neg h1,
            if_pos (show ((st.elems.getD i defaultMut).navAssigned || !(visibleAt vp page i))
              = true from h2)]
        rw [hpe, specSelect, if_neg h1, if_pos h2]
        exact ih st hndr (fun k hk => hlen k (List.mem_cons_of_mem i hk))
      · by_cases h3 :
          (marksOf st i || (page.getD i defaultProps).ancestors.any (marksOf st)) = true
        · have hpe : processElement page vp st i = st := by
            unfold processElement
            rw [if_neg h1,
              if_neg (show ¬ (((st.elems.getD i defaultMut).navAssigned ||
                !(visibleAt vp page i)) = true) from h2),
              if_pos (show closestAssigned page st.elems i = true from h3)]
          rw [hpe, specSelect, if_neg h1, if_neg h2, if_pos h3]
          exact ih st hndr (fun k hk => hlen k (List.mem_cons_of_mem i hk))
        · -- the element is selected and numbered
          have hpe : processElement page vp st i =
              ⟨st.elems.set i (styleAdjust page st.elems i),
                st.labels ++ [⟨i, st.nextNumber + 1, bracesText (st.nextNumber + 1)⟩],
                st.clickableElements ++ [mkInfo page st.elems (i, st.nextNumber + 1)],
                st.nextNumber + 2⟩ := by
            unfold processElement
            rw [if_neg h1,
              if_neg (show ¬ (((st.elems.getD i defaultMut).navAssigned ||
                !(visibleAt vp page i)) = true) from h2),
              if_neg (show ¬ (closestAssigned page st.elems i = true) from h3)]
            rfl
          rw [hpe, specSelect, if_neg h1, if_neg h2, if_neg h3]
          set st1 : CState :=
            ⟨st.elems.set i (styleAdjust page st.elems i),
              st.labels ++ [⟨i, st.nextNumber + 1, bracesText (st.nextNumber + 1)⟩],
              st.clickableElements ++ [mkInfo page st.elems (i, st.nextNumber + 1)],
              st.nextNumber + 2⟩ with hst1
          have hm : marksOf st1 = (fun j => if j = i then true else marksOf st j) := by
            funext j
            by_cases hj : j = i
            · subst hj
              show ((st.elems.set j (styleAdjust page st.elems j)).getD j
                defaultMut).navAssigned = _
              rw [getD_set_self _ _ _ _ hi, if_pos rfl]
              rfl
            · show ((st.elems.set i (styleAdjust page st.elems i)).getD j
                defaultMut).navAssigned = _
              rw [getD_set_ne _ _ _ _ _ (fun hij => hj hij.symm), if_neg hj]
              rfl
          have hspec : specSelect page vp rest (fun j => if j = i then true else marksOf st j)
              (st.nextNumber + 2) = specSelect page vp rest (marksOf st1) st1.nextNumber := by
            rw [hm]
          rw [hspec]
          have hlen1 : ∀ k ∈ rest, k < st1.elems.length := by
            intro k hk
            have hl1 : st1.elems.length = st.elems.length := List.length_set _ _ _
            rw [hl1]
            exact hlen k (List.mem_cons_of_mem i hk)
          obtain ⟨ihce, ihlab, ihnn, ihlen, ihmarks, ihsame, ihsel⟩ := ih st1 hndr hlen1
          have htne : ∀ p ∈ specSelect page vp rest (marksOf st1) st1.nextNumber, p.1 ≠ i := by
            intro p hp hpi
            exact hirest (hpi ▸ mem_specSelect_fst hp)
          have hsame1 : ∀ p ∈ specSelect page vp rest (marksOf st1) st1.nextNumber,
              st1.elems.getD p.1 defaultMut = st.elems.getD p.1 defaultMut := by
            intro p hp
            show (st.elems.set i (styleAdjust page st.elems i)).getD p.1 defaultMut = _
            exact getD_set_ne _ _ _ _ _ (fun h => (htne p hp) h.symm)
          refine ⟨?_, ?_, ?_, ?_, ?_, ?_, ?_⟩
          · rw [ihce]
            have hmap_ce : (specSelect page vp rest (marksOf st1) st1.nextNumber).map
                (mkInfo page st1.elems) =
                (specSelect page vp rest (marksOf st1) st1.nextNumber).map
                  (mkInfo page st.elems) :=
              List.map_congr_left (fun p hp => mkInfo_congr page _ _ p (hsame1 p hp))
            rw [hmap_ce]
            show (st.clickableElements ++ [mkInfo page st.elems (i, st.nextNumber + 1)]) ++
              _ = _
            rw [List.append_assoc]
            rfl
          · rw [ihlab]
            show (st.labels ++ [(⟨i, st.nextNumber + 1, bracesText (st.nextNumber + 1)⟩ :
              LabelNode)]) ++ _ = _
            rw [List.append_assoc]
            rfl
          · rw [ihnn]
            show st.nextNumber + 2 + _ = _
            simp only [List.length_cons]
            omega
          · rw [ihlen]
            exact List.length_set _ _ _
          · intro j
            rw [ihmarks j]
            by_cases hj : j = i
            · subst hj
              have hmj : marksOf st1 j = true := by
                rw [hm]
                simp
              rw [hmj]
              simp
            · have hmj : marksOf st1 j = marksOf st j := by
                rw [hm]
                simp [hj]
              rw [hmj]
              simp only [List.map_cons]
              have hcontains : ((i :: (specSelect page vp rest (marksOf st1)
                  st1.nextNumber).map Prod.fst).contains j) =
                  (((specSelect page vp rest (marksOf st1) st1.nextNumber).map
                    Prod.fst).contains j) := by
                simp [List.contains_cons, hj]
              rw [hcontains]
          · intro j hj
            have hji : i ≠ j := by
              have := hj (i, st.nextNumber + 1) (List.mem_cons_self _ _)
              simpa using this
            have hjt : ∀ p ∈ specSelect page vp rest (marksOf st1) st1.nextNumber, p.1 ≠ j :=
              fun p hp => hj p (List.mem_cons_of_mem _ hp)
            rw [ihsame j hjt]
            show (st.elems.set i (styleAdjust page st.elems i)).getD j defaultMut = _
            exact getD_set_ne _ _ _ _ _ hji
          · intro p hp
            rcases List.mem_cons.mp hp with rfl | hp2
            · have hnotin : ∀ q ∈ specSelect page vp rest (marksOf st1) st1.nextNumber,
                  q.1 ≠ i := htne
              rw [ihsame i hnotin]
              show (st.elems.set i (styleAdjust page st.elems i)).getD i defaultMut = _
              exact getD_set_self _ _ _ _ hi
            · rw [ihsel p hp2]
              exact styleAdjust_congr page _ _ p.1 (hsame1 p hp2)

theorem specSelect_snd (page : List ElemProps) (vp : Viewport) :
    ∀ (l : List Nat) (marks : Nat → Bool) (nn : Nat),
    (specSelect page vp l marks nn).map Prod.snd =
      List.range' (nn + 1) (specSelect page vp l marks nn).length 2 := by
  intro l
  induction l with
  | nil => intro marks nn; rfl
  | cons i rest ih =>
    intro marks nn
    rw [specSelect]
    split
    · exact ih marks nn
    · split
      · exact ih marks nn
      · split
        · exact ih marks nn
        · simp only [List.map_cons, List.length_cons, List.range'_succ]
          rw [ih]

theorem specSelect_cap (page : List ElemProps) (vp : Viewport) :
    ∀ (l : List Nat) (marks : Nat → Bool) (nn : Nat),
    nn + 2 * (specSelect page vp l marks nn).length ≤
      max nn (MAX_ELEMENTS_TO_NUMBER + 2) := by
  intro l
  induction l with
  | nil => intro marks nn; simp [specSelect]
  | cons i rest ih =>
    intro marks nn
    rw [specSelect]
    split
    · exact ih marks nn
    · split
      · exact ih marks nn
      · split
        · exact ih marks nn
        · rename_i hcap _ _
          have hle : nn ≤ MAX_ELEMENTS_TO_NUMBER := by omega
          have := ih (fun j => if j = i then true else marks j) (nn + 2)
          simp only [List.length_cons, MAX_ELEMENTS_TO_NUMBER] at *
          omega

theorem specSelect_not_marked (page : List ElemProps) (vp : Viewport) :
    ∀ (l : List Nat) (marks : Nat → Bool) (nn : Nat),
    ∀ p ∈ specSelect page vp l marks nn, marks p.1 = false := by
  intro l
  induction l with
  | nil => intro marks nn p hp; cases hp
  | cons i rest ih =>
    intro marks nn p hp
    rw [specSelect] at hp
    split at hp
    · exact ih marks nn p hp
    · split at hp
      · exact ih marks nn p hp
      · split at hp
        · exact ih marks nn p hp
        · rename_i hcap hskip hcl
          rcases List.mem_cons.mp hp with rfl | hp2
          · simp only [Bool.or_eq_true, not_or, Bool.not_eq_true] at hskip
            exact hskip.1
          · have := ih _ _ p hp2
            by_cases hpi : p.1 = i
            · rw [if_pos hpi] at this
              cases this
            · rw [if_neg hpi] at this
              exact this

/-! ### What clearNumbers does -/

/-- The element state `clearNumbers` leaves on a cleared entry: marker
removed, and the inline styles conditionally reset. -/
def clearAdjust (elems : List ElemMut) (info : ClickableElementInfo) : ElemMut :=
  let m := elems.getD info.element defaultMut
  let m1 : ElemMut := { m with navAssigned := false }
  let m2 : ElemMut := { m1 with stylePosition :=
    if info.originalPosition == some "static" && m1.stylePosition == "relative" then ""
    else m1.stylePosition }
  { m2 with styleOverflow :=
    if info.originalOverflow == some "hidden" && m2.styleOverflow == "visible" then ""
    else m2.styleOverflow }

theorem clearInfo_eq (st : CState) (info : ClickableElementInfo) :
    clearInfo st info =
      { st with
        labels := st.labels.filter (fun l => decide (l ≠ info.labelElement)),
        elems := st.elems.set info.element (clearAdjust st.elems info) } := rfl

theorem foldl_clearInfo_labels :
    ∀ (infos : List ClickableElementInfo) (st : CState),
    (infos.foldl clearInfo st).labels =
      st.labels.filter (fun l => infos.all (fun info => decide (l ≠ info.labelElement))) := by
  intro infos
  induction infos with
  | nil =>
    intro st
    simp
  | cons a t ih =>
    intro st
    rw [List.foldl_cons, ih, clearInfo_eq]
    show (st.labels.filter _).filter _ = _
    rw [List.filter_filter]
    refine List.filter_congr ?_
    intro l _
    rw [List.all_cons]
    rw [Bool.and_comm]

theorem foldl_clearInfo_length :
    ∀ (infos : List ClickableElementInfo) (st : CState),
    (infos.foldl clearInfo st).elems.length = st.elems.length := by
  intro infos
  induction infos with
  | nil => intro st; rfl
  | cons a t ih =>
    intro st
    rw [List.foldl_cons, ih, clearInfo_eq]
    exact List.length_set _ _ _

theorem foldl_clearInfo_marks :
    ∀ (infos : List ClickableElementInfo) (st : CState) (j : Nat),
    marksOf (infos.foldl clearInfo st) j =
      (if infos.any (fun info => decide (info.element = j)) then false else marksOf st j) := by
  intro infos
  induction infos with
  | nil =>
    intro st j
    simp
  | cons a t ih =>
    intro st j
    rw [List.foldl_cons, ih, clearInfo_eq]
    by_cases haj : a.element = j
    · subst haj
      by_cases hr : a.element < st.elems.length
      · have : marksOf { st with
            labels := st.labels.filter (fun l => decide (l ≠ a.labelElement)),
            elems := st.elems.set a.element (clearAdjust st.elems a) } a.element = false := by
          show ((st.elems.set a.element (clearAdjust st.elems a)).getD a.element
            defaultMut).navAssigned = false
          rw [getD_set_self _ _ _ _ hr]
          rfl
        rw [this]
        simp
      · have hsame : marksOf { st with
            labels := st.labels.filter (fun l => decide (l ≠ a.labelElement)),
            elems := st.elems.set a.element (clearAdjust st.elems a) } a.element = false := by
          show ((st.elems.set a.element (clearAdjust st.elems a)).getD a.element
            defaultMut).navAssigned = false
          rw [List.set_eq_of_length_le (by omega), List.getD_eq_default _ _ (by omega)]
          rfl
        rw [hsame]
        simp
    · have hsame : marksOf { st with
          labels := st.labels.filter (fun l => decide (l ≠ a.labelElement)),
          elems := st.elems.set a.element (clearAdjust st.elems a) } j = marksOf st j := by
        show ((st.elems.set a.element (clearAdjust st.elems a)).getD j
          defaultMut).navAssigned = _
        rw [getD_set_ne _ _ _ _ _ haj]
        rfl
      rw [hsame]
      simp only [List.any_cons]
      by_cases ht : t.any (fun info => decide (info.element = j))
      · simp [ht]
      · simp [ht, haj]

theorem queryAll_nodup (page : List ElemProps) : (queryAll page).Nodup :=
  (List.nodup_range _).filter _

theorem queryAll_pairwise (page : List ElemProps) :
    (queryAll page).Pairwise (· < ·) :=
  List.Pairwise.sublist (List.filter_sublist _) (List.pairwise_lt_range _)

theorem mem_queryAll_lt {page : List ElemProps} {i : Nat} (h : i ∈ queryAll page) :
    i < page.length :=
  List.mem_range.mp (List.mem_filter.mp h).1

theorem mem_queryAll_iff {page : List ElemProps} {i : Nat} :
    i ∈ queryAll page ↔ i < page.length ∧ (page.getD i defaultProps).sel = true := by
  constructor
  · intro h
    exact ⟨mem_queryAll_lt h, by simpa using (List.mem_filter.mp h).2⟩
  · intro ⟨h1, h2⟩
    exact List.mem_filter.mpr ⟨List.mem_range.mpr h1, by simpa using h2⟩

/-- Bundled application of the master lemma to a full scan
(`clearNumbers` followed by the loop over the query results). -/
theorem findAndNumber_spec (page : List ElemProps) (vp : Viewport) (st : CState)
    (hlen : st.elems.length = page.length) :
    (findAndNumberClickableElements page vp st).clickableElements =
        (specSelect page vp (queryAll page) (marksOf (clearNumbers st)) 1).map
          (mkInfo page (clearNumbers st).elems) ∧
    (findAndNumberClickableElements page vp st).labels =
        (clearNumbers st).labels ++
          (specSelect page vp (queryAll page) (marksOf (clearNumbers st)) 1).map
            (fun p => (⟨p.1, p.2, bracesText p.2⟩ : LabelNode)) ∧
    (findAndNumberClickableElements page vp st).nextNumber =
        1 + 2 * (specSelect page vp (queryAll page) (marksOf (clearNumbers st)) 1).length ∧
    (findAndNumberClickableElements page vp st).elems.length = page.length ∧
    (∀ j, marksOf (findAndNumberClickableElements page vp st) j =
      (marksOf (clearNumbers st) j ||
        ((specSelect page vp (queryAll page) (marksOf (clearNumbers st)) 1).map
          Prod.fst).contains j)) ∧
    (∀ j, (∀ p ∈ specSelect page vp (queryAll page) (marksOf (clearNumbers st)) 1,
        p.1 ≠ j) →
      (findAndNumberClickableElements page vp st).elems.getD j defaultMut =
        (clearNumbers st).elems.getD j defaultMut) ∧
    (∀ p ∈ specSelect page vp (queryAll page) (marksOf (clearNumbers st)) 1,
      (findAndNumberClickableElements page vp st).elems.getD p.1 defaultMut =
        styleAdjust page (clearNumbers st).elems p.1) := by
  unfold findAndNumberClickableElements
  have hlen2 : ∀ i ∈ queryAll page, i < (clearNumbers st).elems.length := by
    intro i hi
    rw [show (clearNumbers st).elems.length = st.elems.length from
      foldl_clearInfo_length _ _, hlen]
    exact mem_queryAll_lt hi
  have h := foldl_process_spec page vp (queryAll page) (clearNumbers st)
    (queryAll_nodup page) hlen2
  have hnn : (clearNumbers st).nextNumber = 1 := rfl
  have hce : (clearNumbers st).clickableElements = [] := rfl
  rw [hnn, hce] at h
  obtain ⟨h1, h2, h3, h4, h5, h6, h7⟩ := h
  refine ⟨?_, h2, h3, ?_, h5, h6, h7⟩
  · rw [h1]
    rfl
  · rw [h4]
    show (st.clickableElements.foldl clearInfo st).elems.length = page.length
    rw [foldl_clearInfo_length, hlen]

theorem clearNumbers_labels_of_wf {st : CState}
    (h : st.labels = st.clickableElements.map (·.labelElement)) :
    (clearNumbers st).labels = [] := by
  show (st.clickableElements.foldl clearInfo st).labels = []
  rw [foldl_clearInfo_labels]
  rw [List.filter_eq_nil]
  intro l hl
  rw [h] at hl
  obtain ⟨info, hinfo, rfl⟩ := List.mem_map.mp hl
  intro hall
  have := List.all_eq_true.mp hall info hinfo
  simp at this

theorem count_one_of_nodup_mem {l : List Nat} (hnd : l.Nodup) {x : Nat} (hx : x ∈ l) :
    (l.countP (fun y => decide (y = x))) = 1 := by
  induction l with
  | nil => cases hx
  | cons a t ih =>
    rw [List.countP_cons]
    rcases List.mem_cons.mp hx with rfl | hxt
    · have hnotin : x ∉ t := (List.nodup_cons.mp hnd).1
      have : t.countP (fun y => decide (y = x)) = 0 := by
        rw [List.countP_eq_zero]
        intro y hy
        simp only [decide_eq_true_eq]
        intro hyx
        exact hnotin (hyx ▸ hy)
      simp [this]
    · have ha : a ≠ x := by
        rintro rfl
        exact (List.nodup_cons.mp hnd).1 hxt
      rw [ih (List.nodup_cons.mp hnd).2 hxt]
      simp [ha]

/-- C1 (amended): a `numberClickables` request reports exactly the number of
entries it tracks; the assigned numbers are, in document order, the even
numbers 2, 4, …, 2·n (`List.range' 2 n 2`), not 1 … n, because the counter
is incremented both before and after labelling; the tracked elements are
pairwise distinct; the labels attached to the DOM are exactly the tracked
labels, each showing the braces-wrapped decimal of its element's number,
with exactly one label per numbered element. -/
theorem numberClickables_response (page : List ElemProps) (vp : Viewport)
    (dyn : Nat → DynElem) (st : CState) (hlen : st.elems.length = page.length)
    (hwf : st.labels = st.clickableElements.map (·.labelElement)) :
    (handleRequest page vp dyn st Request.numberClickables).2.1 =
      Response.clickablesNumbered
        (findAndNumberClickableElements page vp st).clickableElements.length ∧
    ((findAndNumberClickableElements page vp st).clickableElements.map (·.number)) =
      List.range' 2 (findAndNumberClickableElements page vp st).clickableElements.length 2 ∧
    ((findAndNumberClickableElements page vp st).clickableElements.map (·.element)).Nodup ∧
    (findAndNumberClickableElements page vp st).labels =
      (findAndNumberClickableElements page vp st).clickableElements.map (·.labelElement) ∧
    (∀ info ∈ (findAndNumberClickableElements page vp st).clickableElements,
      info.labelElement =
        (⟨info.element, info.number, bracesText info.number⟩ : LabelNode) ∧
      ((findAndNumberClickableElements page vp st).labels.countP
        (fun l => decide (l.host = info.element))) = 1) := by
  obtain ⟨h1, h2, _, _, _, _, _⟩ := findAndNumber_spec page vp st hlen
  have hclear : (clearNumbers st).labels = [] := clearNumbers_labels_of_wf hwf
  rw [hclear, List.nil_append] at h2
  constructor
  · rfl
  have hmapnum : (findAndNumberClickableElements page vp st).clickableElements.map
      (·.number) = (specSelect page vp (queryAll page) (marksOf (clearNumbers st)) 1).map
        Prod.snd := by
    rw [h1, List.map_map]
    rfl
  have hmapelem : (findAndNumberClickableElements page vp st).clickableElements.map
      (·.element) = (specSelect page vp (queryAll page) (marksOf (clearNumbers st)) 1).map
        Prod.fst := by
    rw [h1, List.map_map]
    rfl
  have hlenmap : (findAndNumberClickableElements page vp st).clickableElements.length =
      (specSelect page vp (queryAll page) (marksOf (clearNumbers st)) 1).length := by
    rw [h1, List.length_map]
  have hndelem : ((findAndNumberClickableElements page vp st).clickableElements.map
      (·.element)).Nodup := by
    rw [hmapelem]
    exact (specSelect_fst_sublist page vp _ _ _).nodup (queryAll_nodup page)
  refine ⟨?_, hndelem, ?_, ?_⟩
  · rw [hmapnum, hlenmap]
    exact specSelect_snd page vp _ _ _
  · rw [h2, h1, List.map_map]
    rfl
  · intro info hinfo
    rw [h1] at hinfo
    obtain ⟨p, hp, rfl⟩ := List.mem_map.mp hinfo
    refine ⟨rfl, ?_⟩
    rw [h2]
    have : (List.map (fun p => (⟨p.1, p.2, bracesText p.2⟩ : LabelNode))
        (specSelect page vp (queryAll page) (marksOf (clearNumbers st)) 1)).countP
        (fun l => decide (l.host = (mkInfo page (clearNumbers st).elems p).element)) =
        ((specSelect page vp (queryAll page) (marksOf (clearNumbers st)) 1).map
          Prod.fst).countP (fun x => decide (x = p.1)) := by
      rw [List.countP_map, List.countP_map]
      rfl
    rw [this]
    refine count_one_of_nodup_mem ?_ (List.mem_map_of_mem Prod.fst hp)
    exact (specSelect_fst_sublist page vp _ _ _).nodup (queryAll_nodup page)

theorem marks_clear_find (page : List ElemProps) (vp : Viewport) (st : CState)
    (hlen : st.elems.length = page.length) (j : Nat) :
    marksOf (clearNumbers (findAndNumberClickableElements page vp st)) j =
      marksOf (clearNumbers st) j := by
  obtain ⟨h1, _, _, _, h5, _, _⟩ := findAndNumber_spec page vp st hlen
  have hcm : marksOf (clearNumbers (findAndNumberClickableElements page vp st)) j =
      (if (findAndNumberClickableElements page vp st).clickableElements.any
          (fun info => decide (info.element = j)) then false
        else marksOf (findAndNumberClickableElements page vp st) j) :=
    foldl_clearInfo_marks _ _ j
  have hbridge : ((findAndNumberClickableElements page vp st).clickableElements.any
      (fun info => decide (info.element = j)) = true) ↔
      (((specSelect page vp (queryAll page) (marksOf (clearNumbers st)) 1).map
        Prod.fst).contains j = true) := by
    rw [h1, List.elem_iff]
    simp only [List.any_eq_true, List.mem_map, decide_eq_true_eq]
    constructor
    · rintro ⟨info, ⟨p, hp, rfl⟩, helem⟩
      exact ⟨p, hp, helem⟩
    · rintro ⟨p, hp, rfl⟩
      exact ⟨mkInfo page (clearNumbers st).elems p, ⟨p, hp, rfl⟩, rfl⟩
  rw [hcm]
  by_cases hany : (findAndNumberClickableElements page vp st).clickableElements.any
      (fun info => decide (info.element = j)) = true
  · rw [if_pos hany]
    have hj : j ∈ (specSelect page vp (queryAll page) (marksOf (clearNumbers st)) 1).map
        Prod.fst := List.elem_iff.mp (hbridge.mp hany)
    obtain ⟨p, hp, rfl⟩ := List.mem_map.mp hj
    exact (specSelect_not_marked page vp _ _ _ p hp).symm
  · rw [if_neg hany, h5 j]
    have : ((specSelect page vp (queryAll page) (marksOf (clearNumbers st)) 1).map
        Prod.fst).contains j = false := by
      rcases Bool.eq_false_or_eq_true (((specSelect page vp (queryAll page)
        (marksOf (clearNumbers st)) 1).map Prod.fst).contains j) with h | h
      · exact absurd (hbridge.mpr h) hany
      · exact h
    rw [this]
    simp

/-- C7: `findAndNumberClickableElements` is idempotent on an unchanged page —
because each request first clears the previous numbering state, running the
scan twice in succession tracks the same elements with the same assigned
numbers, and the reported count of the second `numberClickables` response
equals that of the first. -/
theorem numbering_idempotent (page : List ElemProps) (vp : Viewport) (dyn : Nat → DynElem)
    (st : CState) (hlen : st.elems.length = page.length) :
    (findAndNumberClickableElements page vp
        (findAndNumberClickableElements page vp st)).clickableElements.map
        (fun info => (info.element, info.number)) =
      (findAndNumberClickableElements page vp st).clickableElements.map
        (fun info => (info.element, info.number)) ∧
    (handleRequest page vp dyn (handleRequest page vp dyn st Request.numberClickables).1
        Request.numberClickables).2.1 =
      (handleRequest page vp dyn st Request.numberClickables).2.1 := by
  have hlen1 : (findAndNumberClickableElements page vp st).elems.length = page.length :=
    (findAndNumber_spec page vp st hlen).2.2.2.1
  obtain ⟨h1, _, _, _, _, _, _⟩ := findAndNumber_spec page vp st hlen
  obtain ⟨g1, _, _, _, _, _, _⟩ :=
    findAndNumber_spec page vp (findAndNumberClickableElements page vp st) hlen1
  have hmarks : marksOf (clearNumbers (findAndNumberClickableElements page vp st)) =
      marksOf (clearNumbers st) := funext (marks_clear_find page vp st hlen)
  rw [hmarks] at g1
  have hproj : (findAndNumberClickableElements page vp
      (findAndNumberClickableElements page vp st)).clickableElements.map
      (fun info => (info.element, info.number)) =
      (findAndNumberClickableElements page vp st).clickableElements.map
        (fun info => (info.element, info.number)) := by
    rw [g1, h1, List.map_map, List.map_map]
    rfl
  refine ⟨hproj, ?_⟩
  show Response.clickablesNumbered _ = Response.clickablesNumbered _
  have : (findAndNumberClickableElements page vp
      (findAndNumberClickableElements page vp st)).clickableElements.length =
      (findAndNumberClickableElements page vp st).clickableElements.length := by
    have := congrArg List.length hproj
    simpa using this
  rw [show (handleRequest page vp dyn st Request.numberClickables).1 =
    findAndNumberClickableElements page vp st from rfl, this]

theorem clearAdjust_congr (e1 e2 : List ElemMut) (info : ClickableElementInfo)
    (h : e1.getD info.element defaultMut = e2.getD info.element defaultMut) :
    clearAdjust e1 info = clearAdjust e2 info := by
  unfold clearAdjust
  rw [h]

theorem foldl_clearInfo_getD :
    ∀ (infos : List ClickableElementInfo) (st : CState),
    ((infos.map (·.element)).Nodup) →
    (∀ j, (∀ info ∈ infos, info.element ≠ j) →
      (infos.foldl clearInfo st).elems.getD j defaultMut = st.elems.getD j defaultMut) ∧
    (∀ info ∈ infos, info.element < st.elems.length →
      (infos.foldl clearInfo st).elems.getD info.element defaultMut =
        clearAdjust st.elems info) := by
  intro infos
  induction infos with
  | nil =>
    intro st _
    exact ⟨fun j _ => rfl, fun info h => absurd h (List.not_mem_nil info)⟩
  | cons a t ih =>
    intro st hnd
    simp only [List.map_cons, List.nodup_cons] at hnd
    obtain ⟨hae, hndt⟩ := hnd
    rw [List.foldl_cons, clearInfo_eq]
    set st1 : CState :=
      { st with
        labels := st.labels.filter (fun l => decide (l ≠ a.labelElement)),
        elems := st.elems.set a.element (clearAdjust st.elems a) } with hst1
    obtain ⟨ih1, ih2⟩ := ih st1 hndt
    constructor
    · intro j hj
      have hja : a.element ≠ j := hj a (List.mem_cons_self a t)
      rw [ih1 j (fun info hinfo => hj info (List.mem_cons_of_mem a hinfo))]
      show (st.elems.set a.element (clearAdjust st.elems a)).getD j defaultMut = _
      exact getD_set_ne _ _ _ _ _ hja
    · intro info hinfo hr
      rcases List.mem_cons.mp hinfo with rfl | hmem
      · have hnotin : ∀ info2 ∈ t, info2.element ≠ info.element := by
          intro info2 h2 heq
          exact hae (heq ▸ List.mem_map_of_mem (·.element) h2)
        rw [ih1 info.element hnotin]
        show (st.elems.set info.element (clearAdjust st.elems info)).getD info.element
          defaultMut = _
        exact getD_set_self _ _ _ _ hr
      · have hr1 : info.element < st1.elems.length := by
          show info.element < (st.elems.set _ _).length
          rw [List.length_set]
          exact hr
        rw [ih2 info hmem hr1]
        refine clearAdjust_congr _ _ info ?_
        have hne : a.element ≠ info.element := by
          intro heq
          exact hae (heq ▸ List.mem_map_of_mem (·.element) hmem)
        show (st.elems.set a.element (clearAdjust st.elems a)).getD info.element
          defaultMut = _
        exact getD_set_ne _ _ _ _ _ hne

theorem clearAdjust_of_styleAdjust (page : List ElemProps) (e0 : List ElemMut) (j n : Nat)
    (e1 : List ElemMut) (h : e1.getD j defaultMut = styleAdjust page e0 j) :
    clearAdjust e1 (mkInfo page e0 (j, n)) =
      { navAssigned := false
        stylePosition := if computedPosition page e0 j == "static" then ""
          else (e0.getD j defaultMut).stylePosition
        styleOverflow := if computedOverflow page e0 j == "hidden" then ""
          else (e0.getD j defaultMut).styleOverflow } := by
  have h2 : e1[j]?.getD defaultMut = styleAdjust page e0 j := by
    simpa using h
  by_cases hcp : (computedPosition page e0 j == "static") = true <;>
    by_cases hco : (computedOverflow page e0 j == "hidden") = true <;>
      simp [clearAdjust, mkInfo, styleAdjust, h2, hcp, hco]

/-- C10 (amended): after a scan, `clearNumbers` removes every tracked label
from the DOM, deletes the marker from every tracked element (leaving the
marker assignment exactly as before the scan), empties the tracked list and
resets the counter to 1, and touches no other element's state; on each
numbered element it sets the inline `position` (resp. `overflow`) to the
empty string exactly when numbering had changed it from computed `static`
(resp. `hidden`) — which restores the original inline style whenever that
inline style was previously absent, but erases an explicit inline
`static` / `hidden` declaration rather than restoring it. -/
theorem clearNumbers_undo (page : List ElemProps) (vp : Viewport) (st : CState)
    (hlen : st.elems.length = page.length)
    (hwf : st.labels = st.clickableElements.map (·.labelElement)) :
    (clearNumbers (findAndNumberClickableElements page vp st)).clickableElements = [] ∧
    (clearNumbers (findAndNumberClickableElements page vp st)).nextNumber = 1 ∧
    (clearNumbers (findAndNumberClickableElements page vp st)).labels = [] ∧
    (∀ j, marksOf (clearNumbers (findAndNumberClickableElements page vp st)) j =
      marksOf (clearNumbers st) j) ∧
    (∀ j, j ∉ (findAndNumberClickableElements page vp st).clickableElements.map
        (·.element) →
      (clearNumbers (findAndNumberClickableElements page vp st)).elems.getD j defaultMut =
        (clearNumbers st).elems.getD j defaultMut) ∧
    (∀ j ∈ (findAndNumberClickableElements page vp st).clickableElements.map (·.element),
      (clearNumbers (findAndNumberClickableElements page vp st)).elems.getD j defaultMut =
        { navAssigned := false
          stylePosition := if computedPosition page (clearNumbers st).elems j == "static"
            then "" else ((clearNumbers st).elems.getD j defaultMut).stylePosition
          styleOverflow := if computedOverflow page (clearNumbers st).elems j == "hidden"
            then "" else ((clearNumbers st).elems.getD j defaultMut).styleOverflow }) ∧
    (∀ j ∈ (findAndNumberClickableElements page vp st).clickableElements.map (·.element),
      ((clearNumbers st).elems.getD j defaultMut).stylePosition = "" →
      ((clearNumbers (findAndNumberClickableElements page vp st)).elems.getD j
        defaultMut).stylePosition =
        ((clearNumbers st).elems.getD j defaultMut).stylePosition) := by
  obtain ⟨h1, h2, _, h4len, _, h6, h7⟩ := findAndNumber_spec page vp st hlen
  have hclearlab : (clearNumbers st).labels = [] := clearNumbers_labels_of_wf hwf
  have hwf1 : (findAndNumberClickableElements page vp st).labels =
      (findAndNumberClickableElements page vp st).clickableElements.map (·.labelElement) := by
    rw [h2, h1, hclearlab, List.nil_append, List.map_map]
    rfl
  have hndelem : ((findAndNumberClickableElements page vp st).clickableElements.map
      (·.element)).Nodup := by
    rw [h1, List.map_map]
    exact (specSelect_fst_sublist page vp _ _ _).nodup (queryAll_nodup page)
  obtain ⟨hg1, hg2⟩ := foldl_clearInfo_getD
    (findAndNumberClickableElements page vp st).clickableElements
    (findAndNumberClickableElements page vp st) hndelem
  have hmain : ∀ j ∈ (findAndNumberClickableElements page vp st).clickableElements.map
      (·.element),
      (clearNumbers (findAndNumberClickableElements page vp st)).elems.getD j defaultMut =
        { navAssigned := false
          stylePosition := if computedPosition page (clearNumbers st).elems j == "static"
            then "" else ((clearNumbers st).elems.getD j defaultMut).stylePosition
          styleOverflow := if computedOverflow page (clearNumbers st).elems j == "hidden"
            then "" else ((clearNumbers st).elems.getD j defaultMut).styleOverflow } := by
    intro j hj
    rw [h1, List.map_map] at hj
    obtain ⟨p, hp, rfl⟩ := List.mem_map.mp hj
    have hinfo : mkInfo page (clearNumbers st).elems p ∈
        (findAndNumberClickableElements page vp st).clickableElements := by
      rw [h1]
      exact List.mem_map_of_mem _ hp
    have hr : (mkInfo page (clearNumbers st).elems p).element <
        (findAndNumberClickableElements page vp st).elems.length := by
      show p.1 < _
      rw [h4len]
      exact mem_queryAll_lt ((specSelect_fst_sublist page vp _ _ _).mem
        (List.mem_map_of_mem Prod.fst hp))
    have hstep := hg2 (mkInfo page (clearNumbers st).elems p) hinfo hr
    have hsty : (findAndNumberClickableElements page vp st).elems.getD p.1 defaultMut =
        styleAdjust page (clearNumbers st).elems p.1 := h7 p hp
    calc (clearNumbers (findAndNumberClickableElements page vp st)).elems.getD
          ((mkInfo page (clearNumbers st).elems p).element) defaultMut
        = clearAdjust (findAndNumberClickableElements page vp st).elems
            (mkInfo page (clearNumbers st).elems p) := hstep
      _ = _ := by
          have := clearAdjust_of_styleAdjust page (clearNumbers st).elems p.1 p.2
            (findAndNumberClickableElements page vp st).elems hsty
          simpa using this
  refine ⟨rfl, rfl, clearNumbers_labels_of_wf hwf1, marks_clear_find page vp st hlen,
    ?_, hmain, ?_⟩
  · intro j hj
    have hunsel : ∀ p ∈ specSelect page vp (queryAll page) (marksOf (clearNumbers st)) 1,
        p.1 ≠ j := by
      intro p hp hpj
      refine hj ?_
      rw [h1, List.map_map]
      exact List.mem_map.mpr ⟨p, hp, hpj⟩
    have huncleared : ∀ info ∈ (findAndNumberClickableElements page vp st).clickableElements,
        info.element ≠ j := by
      intro info hinfo
      rw [h1] at hinfo
      obtain ⟨p, hp, rfl⟩ := List.mem_map.mp hinfo
      exact hunsel p hp
    calc (clearNumbers (findAndNumberClickableElements page vp st)).elems.getD j defaultMut
        = (findAndNumberClickableElements page vp st).elems.getD j defaultMut :=
          hg1 j huncleared
      _ = (clearNumbers st).elems.getD j defaultMut := h6 j hunsel
  · intro j hj hinline
    have h6th := hmain j hj
    rw [h6th]
    by_cases hcp : (computedPosition page (clearNumbers st).elems j == "static") = true
    · show (if (computedPosition page (clearNumbers st).elems j == "static") = true
        then "" else ((clearNumbers st).elems.getD j defaultMut).stylePosition) = _
      rw [if_pos hcp, hinline]
    · show (if (computedPosition page (clearNumbers st).elems j == "static") = true
        then "" else ((clearNumbers st).elems.getD j defaultMut).stylePosition) = _
      rw [if_neg hcp]

theorem specSelect_mem_iff (page : List ElemProps) (vp : Viewport)
    (hanc : ∀ i j, j ∈ (page.getD i defaultProps).ancestors → j < i) :
    ∀ (l : List Nat) (marks : Nat → Bool) (nn : Nat), l.Pairwise (· < ·) →
    ∀ i, (i ∈ (specSelect page vp l marks nn).map Prod.fst ↔
      (i ∈ l ∧ visibleAt vp page i = true ∧ marks i = false ∧
        (∀ j ∈ (page.getD i defaultProps).ancestors,
          marks j = false ∧ j ∉ (specSelect page vp l marks nn).map Prod.fst) ∧
        nn + 2 * (((specSelect page vp l marks nn).map Prod.fst).filter
          (fun j => decide (j < i))).length ≤ MAX_ELEMENTS_TO_NUMBER)) := by
  intro l
  induction l with
  | nil =>
    intro marks nn _ i
    simp [specSelect]
  | cons a rest ih =>
    intro marks nn hpair i
    obtain ⟨ha, hrest⟩ := List.pairwise_cons.mp hpair
    have hanotrest : a ∉ rest := fun h => absurd (ha a h) (lt_irrefl a)
    rw [specSelect]
    by_cases h1 : nn > MAX_ELEMENTS_TO_NUMBER
    · rw [if_pos h1]
      have hsub : ∀ x ∈ (specSelect page vp rest marks nn).map Prod.fst, x ∈ rest :=
        fun x hx => (specSelect_fst_sublist page vp rest marks nn).subset hx
      by_cases hia : i = a
      · subst hia
        constructor
        · intro h
          exact absurd (ha i (hsub i h)) (lt_irrefl i)
        · rintro ⟨_, _, _, _, hcap⟩
          omega
      · rw [ih marks nn hrest i]
        constructor
        · rintro ⟨hmem, hv, hm, hancs, hcap⟩
          exact ⟨List.mem_cons_of_mem a hmem, hv, hm, hancs, hcap⟩
        · rintro ⟨hmem, hv, hm, hancs, hcap⟩
          rcases List.mem_cons.mp hmem with heq | hmem2
          · exact absurd heq hia
          · exact ⟨hmem2, hv, hm, hancs, hcap⟩
    · by_cases h2 : (marks a || !(visibleAt vp page a)) = true
      · rw [if_neg h1, if_pos h2]
        have hsub : ∀ x ∈ (specSelect page vp rest marks nn).map Prod.fst, x ∈ rest :=
          fun x hx => (specSelect_fst_sublist page vp rest marks nn).subset hx
        by_cases hia : i = a
        · subst hia
          constructor
          · intro h
            exact absurd (ha i (hsub i h)) (lt_irrefl i)
          · rintro ⟨_, hv, hm, _, _⟩
            rw [hm, hv] at h2
            simp at h2
        · rw [ih marks nn hrest i]
          constructor
          · rintro ⟨hmem, hv, hm, hancs, hcap⟩
            exact ⟨List.mem_cons_of_mem a hmem, hv, hm, hancs, hcap⟩
          · rintro ⟨hmem, hv, hm, hancs, hcap⟩
            rcases List.mem_cons.mp hmem with heq | hmem2
            · exact absurd heq hia
            · exact ⟨hmem2, hv, hm, hancs, hcap⟩
      · by_cases h3 : (marks a || (page.getD a defaultProps).ancestors.any marks) = true
        · rw [if_neg h1, if_neg h2, if_pos h3]
          have hsub : ∀ x ∈ (specSelect page vp rest marks nn).map Prod.fst, x ∈ rest :=
            fun x hx => (specSelect_fst_sublist page vp rest marks nn).subset hx
          by_cases hia : i = a
          · subst hia
            constructor
            · intro h
              exact absurd (ha i (hsub i h)) (lt_irrefl i)
            · rintro ⟨_, _, hm, hancs, _⟩
              rw [hm] at h3
              simp only [Bool.false_or, List.any_eq_true] at h3
              obtain ⟨j, hj, hmj⟩ := h3
              exact absurd hmj (by rw [(hancs j hj).1]; simp)
          · rw [ih marks nn hrest i]
            constructor
            · rintro ⟨hmem, hv, hm, hancs, hcap⟩
              exact ⟨List.mem_cons_of_mem a hmem, hv, hm, hancs, hcap⟩
            · rintro ⟨hmem, hv, hm, hancs, hcap⟩
              rcases List.mem_cons.mp hmem with heq | hmem2
              · exact absurd heq hia
              · exact ⟨hmem2, hv, hm, hancs, hcap⟩
        · rw [if_neg h1, if_neg h2, if_neg h3]
          have hma : marks a = false := by
            rcases Bool.eq_false_or_eq_true (marks a) with h | h
            · exact absurd (show (marks a || !(visibleAt vp page a)) = true by rw [h]; rfl) h2
            · exact h
          have hvisa' : visibleAt vp page a = true := by
            rcases Bool.eq_false_or_eq_true (visibleAt vp page a) with h | h
            · exact h
            · exact absurd (show (marks a || !(visibleAt vp page a)) = true by
                rw [hma, h]; rfl) h2
          have hanyf : (page.getD a defaultProps).ancestors.any marks = false := by
            rcases Bool.eq_false_or_eq_true ((page.getD a defaultProps).ancestors.any marks)
              with h | h
            · exact absurd (show (marks a ||
                (page.getD a defaultProps).ancestors.any marks) = true by
                  rw [hma, h]; rfl) h3
            · exact h
          have hancsa : ∀ j ∈ (page.getD a defaultProps).ancestors, marks j = false := by
            intro j hj
            rcases Bool.eq_false_or_eq_true (marks j) with h | h
            · exact absurd hanyf (by
                rw [List.any_eq_true.mpr ⟨j, hj, h⟩]
                simp)
            · exact h
          have hsub : ∀ x ∈ (specSelect page vp rest
              (fun j => if j = a then true else marks j) (nn + 2)).map Prod.fst,
              x ∈ rest :=
            fun x hx => (specSelect_fst_sublist page vp rest _ _).subset hx
          have hanotS : a ∉ (specSelect page vp rest
              (fun j => if j = a then true else marks j) (nn + 2)).map Prod.fst :=
            fun h => absurd (ha a (hsub a h)) (lt_irrefl a)
          by_cases hia : i = a
          · subst hia
            simp only [List.map_cons, List.mem_cons]
            constructor
            · intro _
              refine ⟨Or.inl trivial, hvisa', hma, ?_, ?_⟩
              · intro j hj
                have hji : j < i := hanc i j hj
                refine ⟨hancsa j hj, ?_⟩
                intro hjin
                rcases hjin with heq | hjS
                · omega
                · exact absurd (ha j (hsub j hjS)) (by omega)
              · have hfe : ((i :: (specSelect page vp rest
                    (fun j => if j = i then true else marks j) (nn + 2)).map
                    Prod.fst).filter (fun j => decide (j < i))) = [] := by
                  rw [List.filter_cons_of_neg (by simp)]
                  rw [List.filter_eq_nil_iff]
                  intro x hx
                  have := ha x (hsub x hx)
                  simp only [decide_eq_true_eq]
                  omega
                rw [hfe]
                simp only [List.length_nil, MAX_ELEMENTS_TO_NUMBER] at *
                omega
            · intro _
              exact Or.inl trivial
          · have hIH := ih (fun j => if j = a then true else marks j) (nn + 2) hrest i
            simp only [List.map_cons, List.mem_cons]
            by_cases himem : i ∈ rest
            · have hai : a < i := ha i himem
              constructor
              · intro hLHS
                have hiS : i ∈ (specSelect page vp rest
                    (fun j => if j = a then true else marks j) (nn + 2)).map Prod.fst := by
                  rcases hLHS with heq | h
                  · exact absurd heq hia
                  · exact h
                obtain ⟨_, hv, hm', hancs', hcap'⟩ := hIH.mp hiS
                rw [if_neg hia] at hm'
                refine ⟨Or.inr himem, hv, hm', ?_, ?_⟩
                · intro j hj
                  obtain ⟨hmj', hjS'⟩ := hancs' j hj
                  have hja : j ≠ a := by
                    intro heq
                    rw [if_pos heq] at hmj'
                    cases hmj'
                  rw [if_neg hja] at hmj'
                  refine ⟨hmj', ?_⟩
                  intro hjin
                  rcases hjin with heq | hjS
                  · exact hja heq
                  · exact hjS' hjS
                · rw [List.filter_cons_of_pos (by simp [hai])]
                  simp only [List.length_cons]
                  omega
              · rintro ⟨_, hv, hm, hancs, hcap⟩
                refine Or.inr (hIH.mpr ⟨himem, hv, ?_, ?_, ?_⟩)
                · rw [if_neg hia]
                  exact hm
                · intro j hj
                  obtain ⟨hmj, hjnotin⟩ := hancs j hj
                  have hja : j ≠ a := fun heq => hjnotin (Or.inl heq)
                  refine ⟨by rw [if_neg hja]; exact hmj, ?_⟩
                  intro hjS
                  exact hjnotin (Or.inr hjS)
                · rw [List.filter_cons_of_pos (by simp [hai])] at hcap
                  simp only [List.length_cons] at hcap
                  omega
            · constructor
              · intro hLHS
                rcases hLHS with heq | h
                · exact absurd heq hia
                · exact absurd (hsub i h) himem
              · rintro ⟨hmem, _, _, _, _⟩
                rcases hmem with heq | hmem2
                · exact absurd heq hia
                · exact absurd hmem2 himem

/-- C8: scanning a freshly injected page, an element is numbered if and only
if it matches the selector list, is visible per `isElementVisible`, does not
already carry the `number-navigator-assigned` marker, has no ancestor that
carries the marker or is itself numbered by this scan, and fewer than 100
elements earlier in document order have been numbered (the cap). -/
theorem numbered_iff (page : List ElemProps) (vp : Viewport) (mut0 : List ElemMut)
    (hlen : mut0.length = page.length)
    (hanc : ∀ i j, j ∈ (page.getD i defaultProps).ancestors → j < i)
    (i : Nat) (hi : i < page.length) :
    (i ∈ (findAndNumberClickableElements page vp (initState mut0)).clickableElements.map
        (·.element)) ↔
      ((page.getD i defaultProps).sel = true ∧ visibleAt vp page i = true ∧
        marksOf (initState mut0) i = false ∧
        (∀ j ∈ (page.getD i defaultProps).ancestors, marksOf (initState mut0) j = false ∧
          j ∉ (findAndNumberClickableElements page vp
            (initState mut0)).clickableElements.map (·.element)) ∧
        (((findAndNumberClickableElements page vp (initState mut0)).clickableElements.map
          (·.element)).filter (fun j => decide (j < i))).length < 100) := by
  obtain ⟨h1, _, _, _, _, _, _⟩ := findAndNumber_spec page vp (initState mut0) hlen
  have hclear : clearNumbers (initState mut0) = initState mut0 := rfl
  rw [hclear] at h1
  have hmapelem : (findAndNumberClickableElements page vp
      (initState mut0)).clickableElements.map (·.element) =
      (specSelect page vp (queryAll page) (marksOf (initState mut0)) 1).map Prod.fst := by
    rw [h1, List.map_map]
    rfl
  rw [hmapelem]
  rw [specSelect_mem_iff page vp hanc (queryAll page) (marksOf (initState mut0)) 1
    (queryAll_pairwise page) i]
  constructor
  · rintro ⟨hmem, hv, hm, hancs, hcap⟩
    refine ⟨(mem_queryAll_iff.mp hmem).2, hv, hm, hancs, ?_⟩
    simp only [MAX_ELEMENTS_TO_NUMBER] at hcap
    omega
  · rintro ⟨hsel, hv, hm, hancs, hcap⟩
    refine ⟨mem_queryAll_iff.mpr ⟨hi, hsel⟩, hv, hm, hancs, ?_⟩
    simp only [MAX_ELEMENTS_TO_NUMBER]
    omega

/-! ### Concrete page fixtures for witnesses and counterexamples -/

/-- A visible on-screen computed style. -/
def visStyle : ComputedStyle := ⟨"block", "visible", false⟩

/-- An on-screen bounding rectangle. -/
def onRect : Rect := ⟨0, 10, 0, 10, 10, 10⟩

/-- A one-button page. -/
def pageW : List ElemProps := [⟨true, "BUTTON", visStyle, onRect, [], "absolute", "auto"⟩]

/-- A page with a clickable element nested inside another clickable element. -/
def pageNested : List ElemProps :=
  [⟨true, "BUTTON", visStyle, onRect, [], "absolute", "auto"⟩,
    ⟨true, "A", visStyle, onRect, [0], "absolute", "auto"⟩]

/-- A one-button page whose element carries an explicit inline
`position: static` declaration. -/
def pageC : List ElemProps := [⟨true, "BUTTON", visStyle, onRect, [], "absolute", "auto"⟩]

/-- The element state carrying the inline `position: static` declaration. -/
def mutC : List ElemMut := [⟨false, "static", ""⟩]

/-- A viewport of 800 × 600. -/
def vpW : Viewport := ⟨800, 600⟩

/-- Click-time DOM facts: everything attached and visible. -/
def dynW : Nat → DynElem := fun _ => ⟨true, visStyle, onRect⟩

/-- C1 counterexample: on a page with exactly one detected clickable element
the response reports count 1, but the assigned number is 2 — the numbers are
not the consecutive indices 1, …, n. -/
theorem numbering_counterexample :
    (handleRequest pageW vpW dynW (initState [defaultMut]) Request.numberClickables).2.1 =
      Response.clickablesNumbered 1 ∧
    (findAndNumberClickableElements pageW vpW
      (initState [defaultMut])).clickableElements.map (·.number) = [2] ∧
    ([2] : List Nat) ≠ [1] := by
  refine ⟨by decide, by decide, by decide⟩

/-- Closed witness for `numberClickables_response` on the one-button page. -/
theorem numberClickables_response_witness :
    (handleRequest pageW vpW dynW (initState [defaultMut]) Request.numberClickables).2.1 =
      Response.clickablesNumbered 1 ∧
    (findAndNumberClickableElements pageW vpW
        (initState [defaultMut])).clickableElements.map (·.number) =
      List.range' 2 1 2 := by
  have h := numberClickables_response pageW vpW dynW (initState [defaultMut]) rfl rfl
  refine ⟨?_, ?_⟩
  · rw [h.1]
    decide
  · rw [h.2.1]
    decide

/-- Closed witness for `numbering_idempotent` on the one-button page. -/
theorem numbering_idempotent_witness :
    (findAndNumberClickableElements pageW vpW (findAndNumberClickableElements pageW vpW
        (initState [defaultMut]))).clickableElements.map
        (fun info => (info.element, info.number)) =
      (findAndNumberClickableElements pageW vpW
        (initState [defaultMut])).clickableElements.map
        (fun info => (info.element, info.number)) :=
  (numbering_idempotent pageW vpW dynW (initState [defaultMut]) rfl).1

/-- C10 counterexample: the element starts with an explicit inline
`position: static`; numbering switches the inline style to `relative`
(the computed position was `static`), but `clearNumbers` then sets the
inline position to the empty string instead of restoring `static` — so
numbering followed by clearing is not a full undo of the inline style. -/
theorem clear_restore_counterexample :
    ((initState mutC).elems.getD 0 defaultMut).stylePosition = "static" ∧
    (computedPosition pageC (clearNumbers (initState mutC)).elems 0 == "static") = true ∧
    (findAndNumberClickableElements pageC vpW (initState mutC)).clickableElements.map
      (·.element) = [0] ∧
    ((clearNumbers (findAndNumberClickableElements pageC vpW
      (initState mutC))).elems.getD 0 defaultMut).stylePosition = "" ∧
    ("" : String) ≠ "static" := by
  refine ⟨by decide, by decide, by decide, by decide, by decide⟩

/-- Closed witness for `clearNumbers_undo` on the one-button page. -/
theorem clearNumbers_undo_witness :
    (clearNumbers (findAndNumberClickableElements pageW vpW
      (initState [defaultMut]))).clickableElements = [] ∧
    (clearNumbers (findAndNumberClickableElements pageW vpW
      (initState [defaultMut]))).labels = [] := by
  have h := clearNumbers_undo pageW vpW (initState [defaultMut]) rfl rfl
  exact ⟨h.1, h.2.2.1⟩

/-- Closed witness for `numbered_iff`: on the nested page, the outer element
is numbered, and the inner element is skipped precisely because its ancestor
is numbered. -/
theorem numbered_iff_witness :
    1 ∉ (findAndNumberClickableElements pageNested vpW
      (initState [defaultMut, defaultMut])).clickableElements.map (·.element) := by
  have hanc2 : ∀ i j, j ∈ (pageNested.getD i defaultProps).ancestors → j < i := by
    intro i j hj
    rcases i with _ | _ | n
    · simp [pageNested] at hj
    · simp [pageNested] at hj
      omega
    · rw [List.getD_eq_default] at hj
      · simp [defaultProps] at hj
      · simp [pageNested]
  have h := numbered_iff pageNested vpW [defaultMut, defaultMut] (by decide) hanc2 1
    (by decide)
  intro hmem
  obtain ⟨_, _, _, hancs, _⟩ := h.mp hmem
  exact (hancs 0 (by decide)).2 (by decide)

theorem find?_eq_of_mem_nodup :
    ∀ (l : List ClickableElementInfo) (info : ClickableElementInfo) (n : Int),
    ((l.map (·.number)).Nodup) → info ∈ l → (info.number : Int) = n →
    l.find? (fun item => decide ((item.number : Int) = n)) = some info := by
  intro l
  induction l with
  | nil => intro info n _ h; cases h
  | cons a t ih =>
    intro info n hnd hmem hn
    rcases List.mem_cons.mp hmem with rfl | hmem2
    · rw [List.find?_cons, decide_eq_true hn]
    · by_cases han : (a.number : Int) = n
      · exfalso
        have : a.number = info.number := by omega
        simp only [List.map_cons, List.nodup_cons] at hnd
        exact hnd.1 (this ▸ List.mem_map_of_mem (·.number) hmem2)
      · rw [List.find?_cons, decide_eq_false han]
        exact ih info n (by
          simp only [List.map_cons, List.nodup_cons] at hnd
          exact hnd.2) hmem2 hn

/-- C4: a `clickElement` request for number `n` — when a tracked element has
number `n` and is still contained in `document.body` and visible per
`isElementVisible`, that element is focused and clicked and the response is
`Clicked` with number `n`; in every other case no click action is emitted
and the response is an `Error` carrying the explanatory message of the
source (`Element n not visible/found.` when the element was found but is
gone or hidden, `No element for number n.` when no tracked element has
number `n`). -/
theorem clickElement_response (page : List ElemProps) (vp : Viewport) (dyn : Nat → DynElem)
    (st : CState) (n : Int) (hnd : (st.clickableElements.map (·.number)).Nodup) :
    (∀ info ∈ st.clickableElements, (info.number : Int) = n →
      (((dyn info.element).inBody &&
          isElementVisible vp (dyn info.element).style (dyn info.element).rect) = true →
        (handleRequest page vp dyn st (Request.clickElement n)).2.1 =
            Response.clicked n ∧
          DomAction.focus info.element ∈
            (handleRequest page vp dyn st (Request.clickElement n)).2.2 ∧
          DomAction.click info.element ∈
            (handleRequest page vp dyn st (Request.clickElement n)).2.2) ∧
      (¬ (((dyn info.element).inBody &&
          isElementVisible vp (dyn info.element).style (dyn info.element).rect) = true) →
        (handleRequest page vp dyn st (Request.clickElement n)).2.1 =
            Response.error ("Element " ++ toString n ++ " not visible/found.") ∧
          (handleRequest page vp dyn st (Request.clickElement n)).2.2 = [])) ∧
    ((¬ ∃ info ∈ st.clickableElements, (info.number : Int) = n) →
      (handleRequest page vp dyn st (Request.clickElement n)).2.1 =
          Response.error ("No element for number " ++ toString n ++ ".") ∧
        (handleRequest page vp dyn st (Request.clickElement n)).2.2 = []) := by
  constructor
  · intro info hmem hn
    have hfind : st.clickableElements.find?
        (fun item => decide ((item.number : Int) = n)) = some info :=
      find?_eq_of_mem_nodup st.clickableElements info n hnd hmem hn
    constructor
    · intro hcond
      have hstep : handleRequest page vp dyn st (Request.clickElement n) =
          (clearNumbers st, Response.clicked n,
            [DomAction.focus info.element, DomAction.click info.element] ++
              (if (page.getD info.element defaultProps).tagName == "SELECT" then
                [DomAction.mousedown info.element]
              else [])) := by
        simp only [handleRequest, hfind, if_pos hcond]
      rw [hstep]
      refine ⟨rfl, by simp, by simp⟩
    · intro hcond
      have hstep : handleRequest page vp dyn st (Request.clickElement n) =
          (clearNumbers st,
            Response.error ("Element " ++ toString n ++ " not visible/found."), []) := by
        simp only [handleRequest, hfind, if_neg hcond]
      rw [hstep]
      exact ⟨rfl, rfl⟩
  · intro hnone
    have hfind : st.clickableElements.find?
        (fun item => decide ((item.number : Int) = n)) = none := by
      rw [List.find?_eq_none]
      intro info hmem
      simp only [decide_eq_true_eq]
      intro hn
      exact hnone ⟨info, hmem, hn⟩
    have hstep : handleRequest page vp dyn st (Request.clickElement n) =
        (st, Response.error ("No element for number " ++ toString n ++ "."), []) := by
      simp only [handleRequest, hfind]
    rw [hstep]
    exact ⟨rfl, rfl⟩

/-- Closed witness for `clickElement_response`: a tracked element with
number 2 that is still attached and visible is focused and clicked. -/
theorem clickElement_response_witness :
    (handleRequest pageW vpW dynW (findAndNumberClickableElements pageW vpW
        (initState [defaultMut])) (Request.clickElement 2)).2.1 = Response.clicked 2 ∧
    DomAction.click 0 ∈ (handleRequest pageW vpW dynW
      (findAndNumberClickableElements pageW vpW (initState [defaultMut]))
      (Request.clickElement 2)).2.2 := by
  have h := clickElement_response pageW vpW dynW
    (findAndNumberClickableElements pageW vpW (initState [defaultMut])) 2 (by decide)
  have hcase := (h.1 ⟨0, 2, ⟨0, 2, bracesText 2⟩, none, none⟩ (by decide) (by decide)).1
    (by decide)
  exact ⟨hcase.1, hcase.2.2⟩
